import Mathlib

/-!
# t-tran: train-ticket reservation core

A shallow embedding of `modules/basic.go`, `modules/order.go` and
`modules/generateID.go`, followed by the properties established about them.

Conventions of the embedding.

* Go `int` is 64 bit; where the source multiplies, the product is wrapped by `wrapInt64`.
* Go `uint8` values are natural numbers below 256; conversions go through `toUint8`.
* A run-time panic of the Go program (index out of range, slice bounds, division by
  zero) is the `Except.error` branch of the result.
* `time.Time` values are instants in UTC at whole-second resolution (the catalog stores
  them in `datetime` columns); `Time.sec` counts seconds from `0001-01-01 00:00:00`,
  the Go zero time.
* Prices are integers in fen; where the source ends with `float32(price) / 100` the
  embedding returns `price`.
* Database tables are lists of rows, Go maps are association lists visited in list order.
* A buffered channel is the list of its pending values; an operation that would block
  forever in a sequential run is the `none` result.
-/

set_option autoImplicit false

namespace TTran

/-! ## Go runtime -/

/-- Run-time panics the embedded code can raise. -/
inductive GoPanic where
  | indexOutOfRange
  | sliceBoundsOutOfRange
  | integerDivideByZero
  | nilDereference
  | makesliceLenOutOfRange
deriving DecidableEq, Repr

deriving instance DecidableEq for Except

/-- Two's-complement wrap of an integer into the range of Go's 64-bit `int`. -/
def wrapInt64 (x : Int) : Int := (x + 2 ^ 63) % 2 ^ 64 - 2 ^ 63

/-- Conversion `uint8(x)`. -/
def toUint8 (x : Int) : Nat := (x % 256).toNat

/-- Subtraction of two `uint8` values. -/
def subUint8 (a b : Nat) : Nat := (a + 256 - b % 256) % 256

/-- Indexing `s[i]`, panicking when `i` is out of range. -/
def index {α : Type} (s : List α) (i : Nat) : Except GoPanic α :=
  match s.get? i with
  | some a => .ok a
  | none => .error .indexOutOfRange

/-- Slice expression `s[lo:hi]` on a slice whose capacity equals its length. -/
def slice {α : Type} (s : List α) (lo hi : Nat) : Except GoPanic (List α) :=
  if hi > s.length ∨ lo > hi then .error .sliceBoundsOutOfRange
  else .ok ((s.drop lo).take (hi - lo))

/-- Lookup `m[k]` in a map; the zero value of a slice-valued map is the nil slice. -/
def mapGet {α : Type} (m : List (String × List α)) (k : String) : List α :=
  match m.find? (fun kv => kv.1 = k) with
  | some kv => kv.2
  | none => []

/-- Byte-wise string comparison `a < b`. -/
def strLt (a b : String) : Bool := decide (a.data < b.data)

/-! ## time.Time -/

/-- An instant, in whole seconds since `0001-01-01 00:00:00 UTC`. -/
structure Time where
  sec : Int
deriving DecidableEq, Repr

namespace Time

/-- Nanoseconds in one hour (`time.Hour`). -/
def Hour : Int := 3600 * 1000000000

def minDuration : Int := -(2 ^ 63)

def maxDuration : Int := 2 ^ 63 - 1

/-- Method `t.Before(u)`. -/
def Before (t u : Time) : Bool := decide (t.sec < u.sec)

/-- Method `t.After(u)`. -/
def After (t u : Time) : Bool := decide (u.sec < t.sec)

/-- Method `t.AddDate(0, 0, days)` in UTC. -/
def AddDays (t : Time) (days : Int) : Time := ⟨t.sec + 86400 * days⟩

/-- Method `t.Sub(u)`: the `Duration` in nanoseconds, saturating at the `int64` range. -/
def Sub (t u : Time) : Int :=
  let d := (t.sec - u.sec) * 1000000000
  if d < minDuration then minDuration else if maxDuration < d then maxDuration else d

/-- Days elapsed since `0001-01-01` (floor). -/
def dayNumber (t : Time) : Int := t.sec / 86400

/-- Method `t.Day()`: the day of the month in the proleptic Gregorian calendar. -/
def Day (t : Time) : Int :=
  let z := t.dayNumber + 306
  let era := z / 146097
  let doe := z - era * 146097
  let yoe := (doe - doe / 1460 + doe / 36524 - doe / 146096) / 365
  let doy := doe - (365 * yoe + yoe / 4 - yoe / 100)
  let mp := (5 * doy + 2) / 153
  doy - (153 * mp + 2) / 5 + 1

/-- Days from `0001-01-01` to the first of January of `year`. -/
def daysBeforeYear (year : Int) : Int :=
  let y := year - 1
  365 * y + y / 4 - y / 100 + y / 400

/-- The instant `00:00:00` on the `dayOfYear`-th day (counted from 1) of `year`. -/
def ofYearDay (year dayOfYear : Int) : Time := ⟨(daysBeforeYear year + dayOfYear - 1) * 86400⟩

end Time

/-- The value of `int(d.Hours())` for a duration `d` of whole seconds: `Hours` is
`float64(d / Hour) + float64(d % Hour) / 3.6e12`, whose integer part is `d / Hour`
truncated toward zero. -/
def hoursInt (d : Int) : Int := Int.tdiv d Time.Hour

/-- The value of `d.Hours() / float64(den) != 0`. A zero `den` makes the quotient an
infinity or a NaN, both unequal to zero; otherwise the quotient is zero exactly when the
duration is. -/
def hoursQuotNonzero (d den : Int) : Bool :=
  if den = 0 then true else decide (d ≠ 0)

/-! ## Catalog data -/

/-- Station as passed to the query functions. -/
structure Station where
  StationCode : String
  CityCode : String
  StationName : String := ""
deriving DecidableEq, Repr

/-- Timetable row. -/
structure Route where
  StationName : String := ""
  StationCode : String
  CityCode : String
  CheckTicketGate : String := ""
  DepTime : Time := ⟨0⟩
  ArrTime : Time := ⟨0⟩
deriving DecidableEq, Repr

/-- Train configuration. -/
structure TranInfo where
  ID : Int := 0
  TranNum : String
  RouteDepCrossDays : Int := 0
  ScheduleDays : Int := 1
  EnableStartDate : Time
  EnableEndDate : Time
  CarIds : String := ""
  Timetable : List Route := []
  SeatPriceMap : List (String × List Int) := []
deriving DecidableEq, Repr

/-- Method `isIntercity`: `strings.Index(t.TranNum, "C") == 0`. -/
def TranInfo.isIntercity (t : TranInfo) : Bool :=
  match t.TranNum.data with
  | c :: _ => c == 'C'
  | [] => false

/-- Named results of `IsMatchQuery`; `depDate = none` stands for the empty string and
`some d` for `d.Format(ConstYmdFormat)`. -/
structure MatchResult where
  depIdx : Nat
  arrIdx : Nat
  depDate : Option Time
  ok : Bool
deriving DecidableEq, Repr

/-- First loop of the non-intercity branch of `IsMatchQuery`
(`for i := 0; i < timetableLen-1; i++`): `rs` holds the rows from index `i` on. -/
def depScan (depS : Station) : List Route → Int → Int → Int
  | [], _, depI => depI
  | r :: rs, i, depI =>
    if r.CityCode = depS.CityCode then
      let depI := i
      let depI := if r.StationCode = depS.StationCode then i else depI
      depScan depS rs (i + 1) depI
    else if depI ≠ -1 ∧ r.CityCode ≠ depS.CityCode then depI
    else depScan depS rs (i + 1) depI

/-- Second loop of the non-intercity branch (`for i := depI + 1; i < timetableLen; i++`). -/
def arrScan (arrS : Station) (depIdx : Nat) : List Route → Int → Nat → Nat
  | [], _, arrIdx => arrIdx
  | r :: rs, i, arrIdx =>
    if r.CityCode = arrS.CityCode then
      let arrIdx := toUint8 i
      if r.StationCode = arrS.StationCode then toUint8 i
      else arrScan arrS depIdx rs (i + 1) arrIdx
    else if depIdx < arrIdx ∧ r.CityCode ≠ arrS.CityCode then arrIdx
    else arrScan arrS depIdx rs (i + 1) arrIdx

/-- Loop of the intercity branch; the state is `(depI, depIdx, arrIdx)`. -/
def intercityScan (depS arrS : Station) : List Route → Int → Int × Nat × Nat → Int × Nat × Nat
  | [], _, st => st
  | r :: rs, i, (depI, depIdx, arrIdx) =>
    if depI = -1 ∧ r.StationCode = depS.StationCode then
      intercityScan depS arrS rs (i + 1) (i, toUint8 i, arrIdx)
    else if depI ≠ -1 ∧ r.StationCode = arrS.StationCode then (depI, depIdx, toUint8 i)
    else intercityScan depS arrS rs (i + 1) (depI, depIdx, arrIdx)

/-- Tail of `IsMatchQuery`, from the computation of the departure date on. -/
def matchDate (t : TranInfo) (queryDate : Time) (depIdx arrIdx : Nat) :
    Except GoPanic MatchResult := do
  let r ← index t.Timetable depIdx
  let date := queryDate.AddDays (1 - r.DepTime.Day)
  if 1 < t.ScheduleDays ∧
      hoursQuotNonzero (date.Sub t.EnableStartDate) (wrapInt64 (24 * t.ScheduleDays)) then
    pure ⟨depIdx, arrIdx, none, false⟩
  else
    pure ⟨depIdx, arrIdx, some date, true⟩

/-- Method `IsMatchQuery`. -/
def TranInfo.IsMatchQuery (t : TranInfo) (depS arrS : Station) (queryDate : Time) :
    Except GoPanic MatchResult :=
  if queryDate.Before t.EnableStartDate ||
      queryDate.After (t.EnableEndDate.AddDays t.RouteDepCrossDays) then
    pure ⟨0, 0, none, false⟩
  else
    let timetableLen := t.Timetable.length
    if ¬ t.isIntercity then
      let depI := depScan depS (t.Timetable.take (timetableLen - 1)) 0 (-1)
      let depIdx := toUint8 depI
      let arrIdx := arrScan arrS depIdx (t.Timetable.drop (depI + 1).toNat) (depI + 1) 0
      if arrIdx ≤ depIdx then pure ⟨depIdx, arrIdx, none, false⟩
      else matchDate t queryDate depIdx arrIdx
    else
      let st := intercityScan depS arrS t.Timetable 0 (-1, 0, 0)
      matchDate t queryDate st.2.1 st.2.2

/-! ## Catalog lookup -/

/-- Loop of `sort.Search`: binary search on `[i, j)`; every round shrinks `j - i`, so
`fuel = j - i` rounds are enough (`searchLoop_fuel`). -/
def searchLoop (f : Nat → Bool) : Nat → Nat → Nat → Nat
  | 0, i, _ => i
  | fuel + 1, i, j =>
    if i < j then
      let h := (i + j) / 2
      if !f h then searchLoop f fuel (h + 1) j else searchLoop f fuel i h
    else i

/-- Library function `sort.Search(n, f)`. -/
def Search (n : Nat) (f : Nat → Bool) : Nat := searchLoop f n 0 n

/-- The closure `getTranInfo` passes to `sort.Search`. -/
def getTranInfoPred (tranInfos : List TranInfo) (tranNum : String) (date : Time) (i : Nat) :
    Bool :=
  match tranInfos.get? i with
  | some t =>
    if strLt t.TranNum tranNum || t.EnableEndDate.Before date || t.EnableStartDate.After date
    then false else true
  | none => false

/-- Function `getTranInfo` over the global `tranInfos`; `none` is the `(nil, false)`
result. The index returned by `sort.Search` is a natural number, so the test
`idx == -1` of the source never holds. -/
def getTranInfo (tranInfos : List TranInfo) (tranNum : String) (date : Time) :
    Except GoPanic (Option TranInfo) := do
  let idx : Int := Search tranInfos.length (getTranInfoPred tranInfos tranNum date)
  if idx = -1 then pure none
  else
    let t ← index tranInfos idx.toNat
    let den := wrapInt64 (t.ScheduleDays * 24)
    if den = 0 then throw .integerDivideByZero
    else if Int.tmod (hoursInt (date.Sub t.EnableStartDate)) den ≠ 0 then pure none
    else pure (some t)

/-! ## Prices -/

/-- The loop `for i := lo; i < hi; i++ { price += p[i] }` started with `price`. -/
def sumRoute (p : List Int) : Nat → Nat → Int → Except GoPanic Int
  | 0, _, price => pure price
  | n + 1, i, price => do
    let x ← index p i
    sumRoute p n (i + 1) (wrapInt64 (price + x))

/-- Body of the `range t.SeatPriceMap` loop of `getSeatPrice`; `arrIdx` is the
function parameter, which the loop body overwrites and which keeps its value from one
seat type to the next. -/
def seatPriceLoop (depIdx : Nat) :
    List (String × List Int) → Nat → List (String × Int) → Except GoPanic (List (String × Int))
  | [], _, result => pure result
  | (seatType, eachRoutePrice) :: rest, arrIdx, result => do
    let length := eachRoutePrice.length % 256
    let arrIdx := if subUint8 length 1 < arrIdx then subUint8 length 1 else arrIdx
    let price ← sumRoute eachRoutePrice (arrIdx - depIdx) depIdx 0
    seatPriceLoop depIdx rest arrIdx (result ++ [(seatType, price)])

/-- Method `getSeatPrice`: for each seat type the price in fen (the source stores
`float32(price) / 100`). -/
def TranInfo.getSeatPrice (t : TranInfo) (depIdx arrIdx : Nat) :
    Except GoPanic (List (String × Int)) :=
  seatPriceLoop depIdx t.SeatPriceMap arrIdx []

def constSeatTypeAdvancedSoftSleeper : String := "ASS"

def constSeatTypeSoftSleeper : String := "SS"

def constSeatTypeHardSleeper : String := "HS"

def constSeatTypeNoSeat : String := "NST"

/-- Worker of `strings.Split(s, sep)` for a one-character separator. -/
def splitLoop (sep : Char) : List Char → List Char → List String
  | [], cur => [String.mk cur.reverse]
  | c :: cs, cur =>
    if c = sep then String.mk cur.reverse :: splitLoop sep cs []
    else splitLoop sep cs (c :: cur)

/-- Library call `strings.Split(s, "-")`. -/
def splitDash (s : String) : List String := splitLoop '-' s.data []

/-- The loop `for _, p := range priceSlice { price += p }`. -/
def sumPrices : List Int → Int → Int
  | [], price => price
  | p :: ps, price => sumPrices ps (wrapInt64 (price + p))

/-- Method `getOrderPrice`: the price in fen (the source returns
`float32(price) / 100`). -/
def TranInfo.getOrderPrice (t : TranInfo) (seatType seatNum : String) (depIdx arrIdx : Nat) :
    Except GoPanic Int := do
  let priceSlice ←
    if seatType = constSeatTypeAdvancedSoftSleeper ∨ seatType = constSeatTypeSoftSleeper ∨
        seatType = constSeatTypeHardSleeper then do
      let tier ← index (splitDash seatNum) 1
      slice (mapGet t.SeatPriceMap (seatType ++ tier)) depIdx (subUint8 arrIdx depIdx)
    else
      slice (mapGet t.SeatPriceMap seatType) depIdx (subUint8 arrIdx depIdx)
  pure (sumPrices priceSlice 0)

/-! ## Orders -/

def constOneDayOrderCancelLimit : Nat := 3

/-! The order statuses follow `constOneDayOrderCancelLimit` in the same `const` block,
so `iota` is 1 at `constOrderStatusUnpay`. -/

def constOrderStatusUnpay : Nat := 1

def constOrderStatusTimeout : Nat := 2

def constOrderStatusCancelled : Nat := 3

def constOrderStatusPaid : Nat := 4

def constOrderStatusRefund : Nat := 5

def constOrderStatusChanged : Nat := 6

def constOrderStatusChangeUnPay : Nat := 7

def constOrderStatusChangeTimeout : Nat := 8

def constOrderStatusChangeCancelled : Nat := 9

def constOrderStatusChangePaid : Nat := 10

def constOrderStatusIssued : Nat := 11

def constOrderStatusExpired : Nat := 12

/-- Row of the order table; `Price` is in fen. -/
structure Order where
  ID : Nat := 0
  OrderNum : String := ""
  UserID : Nat := 0
  PassengerID : Nat := 0
  TranDepDate : String := ""
  TranNum : String := ""
  CarNum : Nat := 0
  SeatNum : String := ""
  SeatType : String := ""
  CheckTicketGate : String := ""
  DepStation : String := ""
  DepStationIdx : Nat := 0
  DepTime : Time := ⟨0⟩
  ArrStation : String := ""
  ArrStationIdx : Nat := 0
  ArrTime : Time := ⟨0⟩
  Price : Int := 0
  BookTime : Time := ⟨0⟩
  PayTime : Time := ⟨0⟩
  PayType : Nat := 0
  PayAccount : String := ""
  Status : Nat := 0
  changeOrderID : Nat := 0
  sourceOrderID : Nat := 0
deriving DecidableEq, Repr

/-- Row of the cancel-counter table. -/
structure OrderCancelTimes where
  UserID : Nat
  Date : Time
  CancelTimes : Nat
deriving DecidableEq, Repr

/-- The tables behind the global `db`. -/
structure DB where
  orders : List Order := []
  orderCancelTimes : List OrderCancelTimes := []
deriving DecidableEq, Repr

/-- Function `isCancelTimesInLimit`; `now` is `time.Now()`. The row read is the first
one of the user dated today; when there is none, `FirstOrCreate` supplies one with
`CancelTimes: 0`. -/
def isCancelTimesInLimit (db : DB) (now : Time) (userID : Nat) : Bool :=
  let date : Time := ⟨now.dayNumber * 86400⟩
  let CancelTimes :=
    match db.orderCancelTimes.find? (fun r => r.UserID = userID ∧ r.Date = date) with
    | some oct => oct.CancelTimes
    | none => 0
  decide (CancelTimes < constOneDayOrderCancelLimit)

/-- Function `hasUnpayOrder`: counts the rows with `user_id = ? and status = 0` and
returns `count == 0`. -/
def hasUnpayOrder (db : DB) (userID : Nat) : Bool :=
  let count := (db.orders.filter (fun o => o.UserID = userID ∧ o.Status = 0)).length
  count == 0

def availOrdreStatus : List Nat :=
  [constOrderStatusUnpay, constOrderStatusPaid, constOrderStatusChangeUnPay,
    constOrderStatusChangePaid, constOrderStatusIssued]

/-- The time condition of the `Where` clause of `hasTimeConflict` for one order row:
`(dep_time < ? and ? < arr_time) or (dep_time < ? and ? < arr_time) or
(? < dep_time and arr_time < ?)` with arguments
`depTime, depTime, arrTime, arrTime, depTime, arrTime`. -/
def timeConflictCond (o : Order) (depTime arrTime : Time) : Bool :=
  (o.DepTime.Before depTime && depTime.Before o.ArrTime) ||
  (o.DepTime.Before arrTime && arrTime.Before o.ArrTime) ||
  (depTime.Before o.DepTime && o.ArrTime.Before arrTime)

/-- Function `hasTimeConflict`. -/
def hasTimeConflict (db : DB) (passengerID : Nat) (depTime arrTime : Time) : Bool :=
  let count := (db.orders.filter (fun o =>
    o.PassengerID = passengerID ∧ o.Status ∈ availOrdreStatus ∧
      timeConflictCond o depTime arrTime)).length
  count != 0

/-- The travel windows `[dep, arr]` and `[depTime, arrTime]` intersect. This follows the
wording of the specification, for comparison with `timeConflictCond`. -/
def windowsIntersect (dep arr depTime arrTime : Time) : Prop :=
  dep.sec ≤ arrTime.sec ∧ depTime.sec ≤ arr.sec

instance (dep arr depTime arrTime : Time) : Decidable (windowsIntersect dep arr depTime arrTime) :=
  inferInstanceAs (Decidable (_ ∧ _))

/-! ## Schedule collaborators

The schedule types and their methods are declared outside the files embedded here; the
order functions reach them through `ScheduleOps`. -/

/-- Modelled from the spec: the type `ScheduleSeat` (a seat number, the student flag and
the segment mask of the seat) is declared outside the embedded files. -/
structure ScheduleSeat where
  SeatNum : String
  IsStudent : Bool := false
  mask : Nat := 0
deriving DecidableEq, Repr

/-- Car of a schedule, with the fields `getScheduleCars` fills in. -/
structure ScheduleCar where
  SeatType : String
  CarNum : Nat
  NoSeatCount : Nat := 0
  Seats : List ScheduleSeat := []
  EachRouteTravelerCount : List Nat := []
deriving DecidableEq, Repr

/-- Modelled from the spec: the type `ScheduleTran` (departure date, seat type to car
indices, cars) is declared outside the embedded files. -/
structure ScheduleTran where
  DepartureDate : String := ""
  carTypeIdxMap : List (String × List Nat) := []
  Cars : List ScheduleCar := []
deriving DecidableEq, Repr

/-- The schedule functions the order code calls, taken as parameters:
`getScheduleTran(tranNum, date.Format(ConstYmdFormat))`, `countSeatBit(depIdx, arrIdx)`,
and the car methods `getAvailableSeat` and `getAvailableNoSeat`, which return the seat
together with the updated car when `ok` is true. -/
structure ScheduleOps where
  getScheduleTran : String → Time → ScheduleTran
  countSeatBit : Nat → Nat → Nat
  getAvailableSeat : ScheduleCar → Nat → Nat → Nat → Bool → Option (ScheduleSeat × ScheduleCar)
  getAvailableNoSeat : ScheduleCar → Nat → Nat → Nat → Option (ScheduleSeat × ScheduleCar)

/-- The errors `SubmitOrder` returns, in the order of its checks. -/
inductive SubmitError where
  | cancelTimesLimit
  | unpayOrderExists
  | tranNotExist
  | timeConflict
  | seatTypeInvalid
  | noTickets
deriving DecidableEq, Repr

/-- Effect of a successful `SubmitOrder`: the order appended to `unpayOrders`, the car
and the seat that were locked, and the schedule after the lock. -/
structure Submitted where
  order : Order
  car : ScheduleCar
  seat : ScheduleSeat
  schedule : ScheduleTran
deriving DecidableEq, Repr

/-- The loop `for _, carIdx := range carIdxList` of `SubmitOrder`, with `attempt` the car
method called on `scheduleTran.Cars[carIdx]`. -/
def lockLoop (attempt : ScheduleCar → Option (ScheduleSeat × ScheduleCar)) (st : ScheduleTran) :
    List Nat → Except GoPanic (Option (ScheduleCar × ScheduleSeat × ScheduleTran))
  | [] => pure none
  | carIdx :: rest => do
    let car ← index st.Cars carIdx
    match attempt car with
    | some (seat, car1) => pure (some (car1, seat, { st with Cars := st.Cars.set carIdx car1 }))
    | none => lockLoop attempt st rest

/-- Function `SubmitOrder`; `now` is `time.Now()`. The result is the error returned, or
the effect of the successful call. The timer the source starts at the end is not part
of the call itself. -/
def SubmitOrder (ops : ScheduleOps) (db : DB) (tranInfos : List TranInfo) (now : Time)
    (tranNum : String) (date : Time) (depIdx arrIdx : Nat) (userID contactID : Nat)
    (isStudent : Bool) (seatType : String) : Except GoPanic (SubmitError ⊕ Submitted) := do
  if !isCancelTimesInLimit db now userID then
    return .inl .cancelTimesLimit
  if hasUnpayOrder db userID then
    return .inl .unpayOrderExists
  let some tran ← getTranInfo tranInfos tranNum date
    | return .inl .tranNotExist
  let depRoute ← index tran.Timetable depIdx
  let arrRoute ← index tran.Timetable arrIdx
  if hasTimeConflict db contactID depRoute.DepTime arrRoute.ArrTime then
    return .inl .timeConflict
  let scheduleTran := ops.getScheduleTran tranNum date
  let some (_, carIdxList) := scheduleTran.carTypeIdxMap.find? (fun kv => kv.1 = seatType)
    | return .inl .seatTypeInvalid
  let seatBit := ops.countSeatBit depIdx arrIdx
  let seated ← lockLoop (fun c => ops.getAvailableSeat c depIdx arrIdx seatBit isStudent)
    scheduleTran carIdxList
  let locked ← match seated with
    | some r => pure (some (r, false))
    | none => do
      let standing ← lockLoop (fun c => ops.getAvailableNoSeat c depIdx arrIdx seatBit)
        scheduleTran carIdxList
      pure (standing.map (fun r => (r, true)))
  let some ((car, seat, schedule), isMedley) := locked
    | return .inl .noTickets
  let price ← tran.getOrderPrice car.SeatType seat.SeatNum depIdx arrIdx
  let o : Order :=
    { OrderNum := "", UserID := userID, PassengerID := contactID,
      TranDepDate := scheduleTran.DepartureDate, TranNum := tran.TranNum,
      CarNum := car.CarNum, SeatNum := seat.SeatNum, SeatType := car.SeatType,
      CheckTicketGate := depRoute.CheckTicketGate, DepStation := depRoute.StationName,
      DepStationIdx := depIdx, DepTime := depRoute.DepTime,
      ArrStation := arrRoute.StationName, ArrStationIdx := arrIdx,
      ArrTime := arrRoute.ArrTime, Price := price, BookTime := now, Status := 1 }
  let o := if isMedley then { o with SeatType := constSeatTypeNoSeat } else o
  return .inr { order := o, car := car, seat := seat, schedule := schedule }

/-! ## Payment -/

/-- Arguments of one call of the payment collaborator
`payment(o.ID, o.UserID, payType, payAccount, o.Price)`. -/
structure PaymentCall where
  orderID : Nat
  userID : Nat
  payType : Nat
  payAccount : String
  price : Int
deriving DecidableEq, Repr

/-- The errors `Payment` returns; `collaborator` carries the error of the payment
collaborator. -/
inductive PaymentError where
  | alreadyPaid
  | expired
  | changed
  | issued
  | wrongAmount
  | collaborator (msg : String)
deriving DecidableEq, Repr

/-- Result of `Payment`: the returned error (`none` for `nil`), the order afterwards and
the calls made to the payment collaborator. -/
structure PaymentResult where
  err : Option PaymentError
  order : Order
  calls : List PaymentCall
deriving DecidableEq, Repr

/-- The `switch o.Status` guarded by `o.Status != constOrderStatusUnpay` at the head of
`Payment`: the error it returns, if any. -/
def paymentStatusError (status : Nat) : Option PaymentError :=
  if status ≠ constOrderStatusUnpay then
    if status = constOrderStatusPaid then some .alreadyPaid
    else if status = constOrderStatusTimeout then some .expired
    else if status = constOrderStatusChanged then some .changed
    else if status = constOrderStatusIssued then some .issued
    else none
  else none

/-- Method `Payment`; `payment` is the collaborator (`none` for a `nil` error) and `now`
is `time.Now()`. -/
def Order.Payment (o : Order) (payment : PaymentCall → Option String) (now : Time)
    (payType : Nat) (payAccount : String) (price : Int) : PaymentResult :=
  match paymentStatusError o.Status with
  | some e => { err := some e, order := o, calls := [] }
  | none =>
    if o.Price ≠ price then { err := some .wrongAmount, order := o, calls := [] }
    else
      let call : PaymentCall := ⟨o.ID, o.UserID, payType, payAccount, o.Price⟩
      match payment call with
      | some msg => { err := some (.collaborator msg), order := o, calls := [call] }
      | none =>
        { err := none,
          order := { o with PayType := payType, PayAccount := payAccount, PayTime := now,
                            Status := constOrderStatusPaid },
          calls := [call] }

/-! ## Cancellation, refund, check-in -/

/-- The release side of the schedule, also declared outside the embedded files:
`getScheduleTran(o.TranNum, o.TranDepDate)` called with the stored date string
(`scheduleOf`), the seat method `Release(seatBit)` and the car method
`releaseSeat(depIdx, arrIdx)`, each returning the updated object. -/
structure ReleaseOps extends ScheduleOps where
  scheduleOf : String → String → ScheduleTran
  Release : ScheduleSeat → Nat → ScheduleSeat
  releaseSeat : ScheduleCar → Nat → Nat → ScheduleCar

/-- One call of a release method: `seat.Release(seatBit)` on the seat with the given
number, or `car.releaseSeat(depIdx, arrIdx)` on the car with the given number. -/
inductive ReleaseCall where
  | seat (seatNum : String) (seatBit : Nat)
  | car (carNum : Nat) (depIdx arrIdx : Nat)
deriving DecidableEq, Repr

/-- What the timer closure of `SubmitOrder` holds: the order `o`, the locked `seat` and
`car`, and the release calls made so far. -/
structure TimeoutState where
  order : Order
  seat : ScheduleSeat
  car : ScheduleCar
  log : List ReleaseCall := []
deriving DecidableEq, Repr

/-- The closure `SubmitOrder` hands to `time.AfterFunc`. -/
def unpayTimeout (ops : ReleaseOps) (s : TimeoutState) : TimeoutState :=
  if s.order.Status = constOrderStatusUnpay then
    let seatBit := ops.countSeatBit s.order.DepStationIdx s.order.ArrStationIdx
    { order := { s.order with Status := constOrderStatusTimeout },
      seat := ops.Release s.seat seatBit,
      car := ops.releaseSeat s.car s.order.DepStationIdx s.order.ArrStationIdx,
      log := s.log ++ [.seat s.seat.SeatNum seatBit,
        .car s.car.CarNum s.order.DepStationIdx s.order.ArrStationIdx] }
  else s

/-- The loop of `CancelOrder` over `st.Cars`: index and value of the first car with the
number of the order; `none` leaves `car` nil. -/
def findCar (carNum : Nat) : List ScheduleCar → Nat → Option (Nat × ScheduleCar)
  | [], _ => none
  | c :: cs, i => if carNum = c.CarNum then some (i, c) else findCar carNum cs (i + 1)

/-- The loop of `CancelOrder` over `car.Seats`: the first seat with the number of the
order is released. -/
def releaseSeatLoop (ops : ReleaseOps) (seatNum : String) (seatBit : Nat) :
    List ScheduleSeat → List ScheduleSeat × List ReleaseCall
  | [] => ([], [])
  | s :: rest =>
    if s.SeatNum = seatNum then (ops.Release s seatBit :: rest, [.seat s.SeatNum seatBit])
    else
      let r := releaseSeatLoop ops seatNum seatBit rest
      (s :: r.1, r.2)

/-- Effect of `CancelOrder` (its error is always `nil`): the order, the schedule after
the release and the release calls made. -/
structure CancelResult where
  order : Order
  schedule : ScheduleTran
  log : List ReleaseCall
deriving DecidableEq, Repr

/-- Method `CancelOrder`. When no car of the schedule has the number of the order, `car`
is nil and its first use panics. -/
def Order.CancelOrder (o : Order) (ops : ReleaseOps) : Except GoPanic CancelResult :=
  let st := ops.scheduleOf o.TranNum o.TranDepDate
  match findCar o.CarNum st.Cars 0 with
  | none => .error .nilDereference
  | some (i, car) =>
    let seatBit := ops.countSeatBit o.DepStationIdx o.ArrStationIdx
    let released :=
      if o.SeatType ≠ constSeatTypeNoSeat then releaseSeatLoop ops o.SeatNum seatBit car.Seats
      else (car.Seats, [])
    let car1 := ops.releaseSeat { car with Seats := released.1 } o.DepStationIdx o.ArrStationIdx
    .ok { order := { o with Status := constOrderStatusCancelled },
          schedule := { st with Cars := st.Cars.set i car1 },
          log := released.2 ++ [.car car.CarNum o.DepStationIdx o.ArrStationIdx] }

/-- Arguments of one call of the refund collaborator
`refund(o.ID, o.UserID, o.PayType, o.PayAccount, amount)`. -/
structure RefundCall where
  orderID : Nat
  userID : Nat
  payType : Nat
  payAccount : String
  price : Int
deriving DecidableEq, Repr

/-- Result of `Refund`: the returned error (`none` for `nil`), the effect of the
`CancelOrder` it starts with and the calls made to the refund collaborator. -/
structure RefundResult where
  err : Option String
  cancelled : CancelResult
  calls : List RefundCall
deriving DecidableEq, Repr

/-- Method `Refund`; `refund` is the collaborator (`none` for a `nil` error). -/
def Order.Refund (o : Order) (ops : ReleaseOps) (refund : RefundCall → Option String) :
    Except GoPanic RefundResult := do
  let c ← o.CancelOrder ops
  let call : RefundCall :=
    ⟨c.order.ID, c.order.UserID, c.order.PayType, c.order.PayAccount, c.order.Price⟩
  match refund call with
  | some msg => pure { err := some msg, cancelled := c, calls := [call] }
  | none => pure { err := none, cancelled := c, calls := [call] }

/-- Method `CheckIn`. -/
def Order.CheckIn (o : Order) : Order :=
  if o.Status = constOrderStatusPaid ∨ o.Status = constOrderStatusChangePaid then
    { o with Status := constOrderStatusIssued }
  else o

/-! ## Rebooking -/

/-- Indexing `s[i]` with an index of type `int`. -/
def indexInt {α : Type} (s : List α) (i : Int) : Except GoPanic α :=
  if i < 0 then .error .indexOutOfRange else index s i.toNat

/-- Function `hasTimeConflictInChange`: the query of `hasTimeConflict` with the extra
condition `order_id != ?`, read as a condition on the identifier of the order row. -/
def hasTimeConflictInChange (db : DB) (passengerID orderID : Nat) (depTime arrTime : Time) :
    Bool :=
  let count := (db.orders.filter (fun o =>
    o.PassengerID = passengerID ∧ o.Status ∈ availOrdreStatus ∧ o.ID ≠ orderID ∧
      timeConflictCond o depTime arrTime)).length
  count != 0

/-- The errors `Change` returns, in the order of its checks. -/
inductive ChangeError where
  | alreadyChanged
  | unpayOrderExists
  | tranNotExist
  | timeConflict
  | seatTypeInvalid
  | noTickets
deriving DecidableEq, Repr

/-- Effect of a successful `Change`: the source order and the new order afterwards, the
schedule after the lock and the calls made to the refund collaborator (whose result
`Change` does not look at). -/
structure Changed where
  source : Order
  newOrder : Order
  schedule : ScheduleTran
  refunds : List RefundCall
deriving DecidableEq, Repr

/-- Method `Change`; `now` is `time.Now()`. The variable `carIdx` declared as `-1` at the
top of the source is not the loop variable of the two `range` loops, which declare their
own `carIdx`; the order literal reads `scheduleTran.Cars[carIdx]` with the outer one.
The timer started on the unpaid branch is not part of the call itself. -/
def Order.Change (o : Order) (ops : ScheduleOps) (db : DB) (tranInfos : List TranInfo)
    (now : Time) (tranNum : String) (date : Time) (depIdx arrIdx : Nat)
    (userID passengerID : Nat) (isStudent : Bool) (seatType : String) :
    Except GoPanic (ChangeError ⊕ Changed) := do
  if o.changeOrderID ≠ 0 ∨ o.sourceOrderID ≠ 0 then
    return .inl .alreadyChanged
  if hasUnpayOrder db userID then
    return .inl .unpayOrderExists
  let some tran ← getTranInfo tranInfos tranNum date
    | return .inl .tranNotExist
  let depRoute ← index tran.Timetable depIdx
  let arrRoute ← index tran.Timetable arrIdx
  if hasTimeConflictInChange db passengerID o.ID depRoute.DepTime arrRoute.ArrTime then
    return .inl .timeConflict
  let scheduleTran := ops.getScheduleTran tranNum date
  let some (_, carIdxList) := scheduleTran.carTypeIdxMap.find? (fun kv => kv.1 = seatType)
    | return .inl .seatTypeInvalid
  let carIdx : Int := -1
  let seatBit := ops.countSeatBit depIdx arrIdx
  let seated ← lockLoop (fun c => ops.getAvailableSeat c depIdx arrIdx seatBit isStudent)
    scheduleTran carIdxList
  let locked ← match seated with
    | some r => pure (some (r, false))
    | none => do
      let standing ← lockLoop (fun c => ops.getAvailableNoSeat c depIdx arrIdx seatBit)
        scheduleTran carIdxList
      pure (standing.map (fun r => (r, true)))
  let some ((car, seat, schedule), isMedley) := locked
    | return .inl .noTickets
  let carAt ← indexInt schedule.Cars carIdx
  let price ← tran.getOrderPrice car.SeatType seat.SeatNum depIdx arrIdx
  let newOrder : Order :=
    { OrderNum := "", UserID := userID, PassengerID := passengerID,
      TranDepDate := scheduleTran.DepartureDate, TranNum := tran.TranNum,
      CarNum := carAt.CarNum, SeatNum := seat.SeatNum, SeatType := carAt.SeatType,
      CheckTicketGate := depRoute.CheckTicketGate, DepStation := depRoute.StationName,
      DepStationIdx := depIdx, DepTime := depRoute.DepTime,
      ArrStation := arrRoute.StationName, ArrStationIdx := arrIdx,
      ArrTime := arrRoute.ArrTime, Price := price, BookTime := now, Status := 1 }
  let newOrder := if isMedley then { newOrder with SeatType := constSeatTypeNoSeat } else newOrder
  let o := { o with changeOrderID := newOrder.ID }
  if newOrder.Price ≤ o.Price then
    let call : RefundCall :=
      ⟨o.ID, o.UserID, o.PayType, o.PayAccount, o.Price - newOrder.Price⟩
    return .inr { source := { o with Status := constOrderStatusChanged },
                  newOrder := { newOrder with Status := constOrderStatusPaid },
                  schedule := schedule, refunds := [call] }
  else
    return .inr { source := o,
                  newOrder := { newOrder with Price := newOrder.Price - o.Price },
                  schedule := schedule, refunds := [] }

/-! ## Timetable normalisation -/

/-- Method `t.Year()` in the proleptic Gregorian calendar. -/
def Time.Year (t : Time) : Int :=
  let z := t.dayNumber + 306
  let era := z / 146097
  let doe := z - era * 146097
  let yoe := (doe - doe / 1460 + doe / 36524 - doe / 146096) / 365
  let doy := doe - (365 * yoe + yoe / 4 - yoe / 100)
  let mp := (5 * doy + 2) / 153
  yoe + era * 400 + (if mp < 10 then 0 else 1)

/-- Method `t.YearDay()`: the day of the year, counted from 1. -/
def Time.YearDay (t : Time) : Int := t.dayNumber - Time.daysBeforeYear t.Year + 1

/-- Rounds `i, i + 1, ...` of the loop of `initTimetable`: `day` is the counter on entry
to round `i`, `prev` is row `i - 1` as the earlier rounds left it, and the list holds the
rows from index `i` on. The round of the last row ends at
`if i == routeCount-1 { break }`. -/
def initTimetableLoop : Int → Route → List Route → List Route
  | _, _, [] => []
  | day, prev, [r] =>
    let arr := r.ArrTime.AddDays day
    let arr := if arr.Before prev.DepTime then arr.AddDays 1 else arr
    [{ r with ArrTime := arr }]
  | day, prev, r :: r2 :: rs =>
    let arr := r.ArrTime.AddDays day
    let early := arr.Before prev.DepTime
    let day := if early then day + 1 else day
    let arr := if early then arr.AddDays 1 else arr
    let dep := r.DepTime.AddDays day
    let early := dep.Before arr
    let day := if early then day + 1 else day
    let dep := if early then dep.AddDays 1 else dep
    let r1 : Route := { r with ArrTime := arr, DepTime := dep }
    r1 :: initTimetableLoop day r1 (r2 :: rs)

/-- Method `initTimetable`. On an empty timetable the final `t.Timetable[len-1]` panics. -/
def TranInfo.initTimetable (t : TranInfo) : Except GoPanic TranInfo :=
  match t.Timetable with
  | [] => .error .indexOutOfRange
  | r0 :: rs =>
    let timetable := r0 :: initTimetableLoop 0 r0 rs
    let last := (r0 :: initTimetableLoop 0 r0 rs).getLast (List.cons_ne_nil _ _)
    .ok { t with Timetable := timetable, RouteDepCrossDays := last.DepTime.YearDay - 1 }

/-- The raw times of a row are times of day of the synthetic day starting at second `b`. -/
def Route.onDay (r : Route) (b : Int) : Prop :=
  (b ≤ r.ArrTime.sec ∧ r.ArrTime.sec < b + 86400) ∧
  (b ≤ r.DepTime.sec ∧ r.DepTime.sec < b + 86400)

instance (r : Route) (b : Int) : Decidable (r.onDay b) :=
  inferInstanceAs (Decidable (_ ∧ _))

/-- The order of the times along a timetable, `prev` being the row before the rows of the
list: every arrival is no earlier than the departure of the row before, and at every row
but the last the departure is no earlier than the arrival. -/
def Normalized : Route → List Route → Prop
  | _, [] => True
  | prev, r :: rs =>
    prev.DepTime.sec ≤ r.ArrTime.sec ∧ (rs ≠ [] → r.ArrTime.sec ≤ r.DepTime.sec) ∧
      Normalized r rs

/-! ## Car layout -/

/-- Assignment `m[k] = v` in a map. -/
def mapSet {α : Type} (m : List (String × List α)) (k : String) (v : List α) :
    List (String × List α) :=
  match m with
  | [] => [(k, v)]
  | kv :: rest => if kv.1 = k then (k, v) :: rest else kv :: mapSet rest k v

/-- The pool: `pool` is the content of the buffered channel, oldest first, and `chanCap`
its buffer size. -/
structure IDPool where
  capacity : Int
  len : Int
  pool : List Nat := []
  chanCap : Nat
  key : String := ""
deriving DecidableEq, Repr

/-- A pool together with the `val` of its row in `config_id`. -/
structure IDState where
  p : IDPool
  val : Nat
deriving DecidableEq, Repr

/-- The loop `for i := 0; i < p.capacity; i++ { p.pool <- (offset + uint64(i)) }`; `none`
when a send finds the channel full and blocks. -/
def pullLoop (chanCap offset : Nat) : Nat → Nat → List Nat → Option (List Nat)
  | 0, _, pool => some pool
  | n + 1, i, pool =>
    if pool.length < chanCap then
      pullLoop chanCap offset n (i + 1) (pool ++ [(offset + i) % 2 ^ 64])
    else none

/-- Method `pull`, with an update of `config_id` that succeeds. -/
def IDState.pull (s : IDState) : Option IDState :=
  let offset := s.val
  let val := ((offset : Int) + s.p.capacity) % 2 ^ 64
  match pullLoop s.p.chanCap offset s.p.capacity.toNat 0 s.p.pool with
  | some pool => some { p := { s.p with pool := pool }, val := val.toNat }
  | none => none

/-- Method `getID`; `none` when a channel operation blocks. -/
def IDState.getID (s : IDState) : Option (Nat × IDState) :=
  match s.p.pool with
  | [] => none
  | id :: rest =>
    let s1 : IDState := { s with p := { s.p with pool := rest, len := s.p.len - 1 } }
    if s1.p.len = 0 then
      match s1.pull with
      | some s2 => some (id, s2)
      | none => none
    else some (id, s1)

/-- Method `getIDByModel`; `none` when a channel operation blocks. -/
def IDState.getIDByModel (s : IDState) (baseID : Nat) : Option (Nat × IDState) :=
  match s.p.pool with
  | [] => none
  | id :: rest =>
    let m := baseID % 10
    let id := ((id <<< 4) % 2 ^ 64) ^^^ m
    let s1 : IDState := { s with p := { s.p with pool := rest, len := s.p.len - 1 } }
    if s1.p.len = 0 then
      match s1.pull with
      | some s2 => some (id, s2)
      | none => none
    else some (id, s1)

/-- One pool of `initGenerateID`: capacity, `len` and channel buffer `cap`, then `pull`. -/
def initIDPool (cap : Nat) (key : String) (val : Nat) : Option IDState :=
  IDState.pull { p := { capacity := cap, len := cap, pool := [], chanCap := cap, key := key },
                 val := val }

/-- Runs `getID` the given number of times. -/
def getIDs : Nat → IDState → Option IDState
  | 0, s => some s
  | n + 1, s =>
    match s.getID with
    | some r => getIDs n r.2
    | none => none

/-! ## Timer and cancellation in sequence -/

/-- The timer of `SubmitOrder` fires, then `CancelOrder` is called on the order: the order
afterwards and all release calls made. -/
def timeoutThenCancel (ops : ReleaseOps) (s : TimeoutState) :
    Except GoPanic (Order × List ReleaseCall) :=
  let s1 := unpayTimeout ops s
  (s1.order.CancelOrder ops).map (fun r => (r.order, s1.log ++ r.log))

/-- `CancelOrder` is called on the order, then the timer of `SubmitOrder` fires: the order
afterwards and all release calls made. -/
def cancelThenTimeout (ops : ReleaseOps) (s : TimeoutState) :
    Except GoPanic (Order × List ReleaseCall) :=
  (s.order.CancelOrder ops).map (fun r =>
    let s1 := unpayTimeout ops { s with order := r.order, log := s.log ++ r.log }
    (s1.order, s1.log))

/-! ## Train list order and city index -/

/-- The slice type `tranCfgs`. -/
abbrev tranCfgs := List TranInfo

/-- Body of `tranCfgs.Less` on the two elements `t[i]` and `t[j]`. -/
def lessTran (a b : TranInfo) : Bool :=
  if strLt a.TranNum b.TranNum then true
  else a.EnableStartDate.Before b.EnableStartDate

/-- Method `Less` of `tranCfgs`. -/
def tranCfgs.Less (t : tranCfgs) (i j : Nat) : Except GoPanic Bool := do
  let a ← index t i
  let b ← index t j
  pure (lessTran a b)

/-- The strict lexicographic order on `(trainNum, enableStart)`, as the specification
words the sort order of the train list. -/
def specLexLess (a b : TranInfo) : Prop :=
  a.TranNum.data < b.TranNum.data ∨
    (a.TranNum = b.TranNum ∧ a.EnableStartDate.sec < b.EnableStartDate.sec)

instance (a b : TranInfo) : Decidable (specLexLess a b) :=
  inferInstanceAs (Decidable (_ ∨ _))

/-- Inner loop of the library's `insertionSort`
(`for j := i; j > a && data.Less(j, j-1); j-- { data.Swap(j, j-1) }`): `x` is the element
moving down, the list is the part below it, nearest element first. -/
def insertDown {α : Type} (less : α → α → Bool) (x : α) : List α → List α
  | [] => [x]
  | y :: ys => if less x y then y :: insertDown less x ys else x :: y :: ys

/-- Library function `sort.Sort` on a slice of at most 12 elements, where it is the
insertion sort; `less a b` is `data.Less` on the positions holding `a` and `b`. -/
def insertionSort {α : Type} (less : α → α → Bool) (l : List α) : List α :=
  (l.foldl (fun sorted x => insertDown less x sorted) []).reverse

/-- Method `t.Month()` in the proleptic Gregorian calendar. -/
def Time.Month (t : Time) : Int :=
  let z := t.dayNumber + 306
  let era := z / 146097
  let doe := z - era * 146097
  let yoe := (doe - doe / 1460 + doe / 36524 - doe / 146096) / 365
  let doy := doe - (365 * yoe + yoe / 4 - yoe / 100)
  let mp := (5 * doy + 2) / 153
  if mp < 10 then mp + 3 else mp - 9

/-- The decimal numeral of `x`, padded with zeros to at least `width` digits, as the
formatter of package `time` writes a number. -/
def appendInt (x : Int) (width : Nat) : String :=
  let ds := Nat.toDigits 10 x.natAbs
  let padded := List.replicate (width - ds.length) '0' ++ ds
  String.mk (if x < 0 then '-' :: padded else padded)

/-- Method `t.Format(ConstYmdFormat)`, the layout `2006-01-02`. -/
def Time.FormatYmd (t : Time) : String :=
  appendInt t.Year 4 ++ "-" ++ appendInt t.Month 2 ++ "-" ++ appendInt t.Day 2

/-- The inner loop of `initCityTranMap` over the timetable of train `t`. -/
def addTranRoutes (t : TranInfo) :
    List Route → List (String × List TranInfo) → List (String × List TranInfo)
  | [], cityTranMap => cityTranMap
  | r :: rs, cityTranMap =>
    let tranPtrs :=
      match cityTranMap.find? (fun kv => kv.1 = r.CityCode) with
      | some kv => kv.2 ++ [t]
      | none => [t]
    addTranRoutes t rs (mapSet cityTranMap r.CityCode tranPtrs)

/-- The outer loop of `initCityTranMap` over the trains. -/
def addTrans : List TranInfo → List (String × List TranInfo) → List (String × List TranInfo)
  | [], cityTranMap => cityTranMap
  | t :: ts, cityTranMap => addTrans ts (addTranRoutes t t.Timetable cityTranMap)

/-- Function `initCityTranMap`: the value it gives the global `cityTranMap`; a pointer
into `tranInfos` is represented by the train it points to. -/
def initCityTranMap (tranInfos : List TranInfo) : List (String × List TranInfo) :=
  addTrans tranInfos []

/-- The map key `t.TranNum+t.EnableStartDate.Format(ConstYmdFormat)` of `getViaTrans`. -/
def viaKey (t : TranInfo) : String := t.TranNum ++ t.EnableStartDate.FormatYmd

/-- Function `getViaTrans` over the global `cityTranMap`. -/
def getViaTrans (cityTranMap : List (String × List TranInfo)) (depS arrS : Station) :
    List TranInfo :=
  match cityTranMap.find? (fun kv => kv.1 = depS.CityCode) with
  | none => []
  | some depEntry =>
    match cityTranMap.find? (fun kv => kv.1 = arrS.CityCode) with
    | none => []
    | some arrEntry =>
      let depTrans := depEntry.2
      let arrTrans := arrEntry.2
      let swapped := decide (arrTrans.length < depTrans.length)
      let arrTrans1 := if swapped then depTrans else arrTrans
      let depTrans1 := if swapped then arrTrans else depTrans
      let m := depTrans1.map viaKey
      arrTrans1.filter (fun t => decide (viaKey t ∈ m))

/-! ## Concrete catalog and order data used below -/

/-- Midnight of 2024-01-01, 2024-01-02, ... are `Time.ofYearDay 2024 1`, `2024 2`, ...;
`timetableTime d h` is the timetable instant `h:00` on synthetic day `d` of year 1. -/
def timetableTime (d h : Int) : Time := ⟨(Time.ofYearDay 1 d).sec + 3600 * h⟩

/-- Intercity train `C100` running daily through 2024 from station `TJ1` in city `TJ`
to station `BJ1` in city `BJ`. -/
def trainC100 : TranInfo :=
  { TranNum := "C100", ScheduleDays := 1,
    EnableStartDate := Time.ofYearDay 2024 1, EnableEndDate := Time.ofYearDay 2024 366,
    Timetable :=
      [{ StationCode := "TJ1", CityCode := "TJ", DepTime := timetableTime 1 8 },
       { StationCode := "BJ1", CityCode := "BJ", ArrTime := timetableTime 1 9 }] }

/-- Train `G1` running daily through 2024, calling at `X1` and `X2` in city `X` and
ending at `Y1` in city `Y`. -/
def trainG1 : TranInfo :=
  { TranNum := "G1", ScheduleDays := 1,
    EnableStartDate := Time.ofYearDay 2024 1, EnableEndDate := Time.ofYearDay 2024 366,
    Timetable :=
      [{ StationCode := "X1", CityCode := "X", DepTime := timetableTime 1 8 },
       { StationCode := "X2", CityCode := "X", ArrTime := timetableTime 1 9,
         DepTime := timetableTime 1 9 },
       { StationCode := "Y1", CityCode := "Y", ArrTime := timetableTime 1 12 }] }

/-- Train `K5` from `A1` to `B1` running every second day from 2024-01-01. -/
def trainK5 : TranInfo :=
  { TranNum := "K5", ScheduleDays := 2,
    EnableStartDate := Time.ofYearDay 2024 1, EnableEndDate := Time.ofYearDay 2024 366,
    Timetable :=
      [{ StationCode := "A1", CityCode := "A", DepTime := timetableTime 1 8 },
       { StationCode := "B1", CityCode := "B", ArrTime := timetableTime 1 12 }] }

/-- Train `G2` running daily through 2024 over three segments priced 100, 200 and 300
fen in second class. -/
def trainG2 : TranInfo :=
  { TranNum := "G2", ScheduleDays := 1,
    EnableStartDate := Time.ofYearDay 2024 1, EnableEndDate := Time.ofYearDay 2024 366,
    Timetable :=
      [{ StationCode := "A1", CityCode := "A", DepTime := timetableTime 1 8 },
       { StationCode := "B1", CityCode := "B", ArrTime := timetableTime 1 9,
         DepTime := timetableTime 1 9 },
       { StationCode := "C1", CityCode := "C", ArrTime := timetableTime 1 10,
         DepTime := timetableTime 1 10 },
       { StationCode := "D1", CityCode := "D", ArrTime := timetableTime 1 11 }],
    SeatPriceMap := [("SC", [100, 200, 300])] }

/-- The configuration of train `G1` for 2025, sorted after `trainG1`. -/
def trainG1Next : TranInfo :=
  { trainG1 with
    EnableStartDate := Time.ofYearDay 2025 1, EnableEndDate := Time.ofYearDay 2025 365 }

/-- An order of passenger 7 in status Paid, travelling 08:00 to 10:00 on 2024-01-10. -/
def paidOrder : Order :=
  { ID := 1, UserID := 3, PassengerID := 7, TranNum := "G2",
    DepTime := ⟨(Time.ofYearDay 2024 10).sec + 8 * 3600⟩,
    ArrTime := ⟨(Time.ofYearDay 2024 10).sec + 10 * 3600⟩,
    Price := 30000, Status := constOrderStatusPaid }

/-- A schedule collaborator with no schedule at all. -/
def emptyScheduleOps : ScheduleOps :=
  { getScheduleTran := fun _ _ => {},
    countSeatBit := fun _ _ => 0,
    getAvailableSeat := fun _ _ _ _ _ => none,
    getAvailableNoSeat := fun _ _ _ _ => none }

/-- A payment collaborator that accepts every charge. -/
def paymentAccepts : PaymentCall → Option String := fun _ => none

/-- An order of 50 yuan in status Cancelled. -/
def cancelledOrder : Order :=
  { ID := 2, UserID := 3, PassengerID := 7, TranNum := "G2", Price := 5000,
    Status := constOrderStatusCancelled }

/-- An order of 50 yuan in status ChangeUnpaid. -/
def changeUnpaidOrder : Order :=
  { ID := 4, UserID := 3, PassengerID := 7, TranNum := "G2", Price := 5000,
    Status := constOrderStatusChangeUnPay }

/-- A schedule of one second-class car, number 1, whose seat `1A` is sold on segments 0
and 1 (mask 3) and whose seat `1B` is free. -/
def oneCarSchedule : ScheduleTran :=
  { DepartureDate := "2024-01-10",
    carTypeIdxMap := [("SC", [0])],
    Cars := [{ SeatType := "SC", CarNum := 1,
               Seats := [{ SeatNum := "1A", mask := 3 }, { SeatNum := "1B", mask := 0 }] }] }

/-- Schedule collaborators over `oneCarSchedule`: the seat bit of `[depIdx, arrIdx)` is
the mask of those segments, a car hands out its first seat free on them, and a release
clears the bits. -/
def oneCarOps : ReleaseOps :=
  { getScheduleTran := fun _ _ => oneCarSchedule,
    countSeatBit := fun depIdx arrIdx => 2 ^ arrIdx - 2 ^ depIdx,
    getAvailableSeat := fun c _ _ seatBit _ =>
      match c.Seats.find? (fun s => s.mask &&& seatBit = 0) with
      | some seat => some ({ seat with mask := seat.mask ||| seatBit }, c)
      | none => none,
    getAvailableNoSeat := fun _ _ _ _ => none,
    scheduleOf := fun _ _ => oneCarSchedule,
    Release := fun seat seatBit => { seat with mask := seat.mask ^^^ (seat.mask &&& seatBit) },
    releaseSeat := fun c _ _ => c }

/-- A refund collaborator that accepts every refund. -/
def refundAccepts : RefundCall → Option String := fun _ => none

/-- A Paid order of 100 yuan of user 3 for passenger 7: seat `1A` of car 1 on train `G2`
of 2024-01-10, from station 0 to station 2. -/
def paidSeatOrder : Order :=
  { ID := 5, UserID := 3, PassengerID := 7, TranDepDate := "2024-01-10", TranNum := "G2",
    CarNum := 1, SeatNum := "1A", SeatType := "SC", DepStationIdx := 0, ArrStationIdx := 2,
    DepTime := ⟨(Time.ofYearDay 2024 10).sec + 8 * 3600⟩,
    ArrTime := ⟨(Time.ofYearDay 2024 10).sec + 10 * 3600⟩,
    Price := 10000, PayType := 1, PayAccount := "acct", Status := constOrderStatusPaid }

/-- The same order while still Unpaid, with the seat and the car its timer holds. -/
def unpaidTimeoutState : TimeoutState :=
  { order := { paidSeatOrder with Status := constOrderStatusUnpay },
    seat := { SeatNum := "1A", mask := 3 },
    car := { SeatType := "SC", CarNum := 1 } }

/-- An order row of user 3 whose status column is 0, the value of no order status. -/
def statusZeroOrder : Order :=
  { ID := 9, UserID := 3, PassengerID := 8, Status := 0 }

/-- Train `G6` running daily through 2024 from `A1` to `B1`, 60 yuan in second class. -/
def trainG6 : TranInfo :=
  { TranNum := "G6", ScheduleDays := 1,
    EnableStartDate := Time.ofYearDay 2024 1, EnableEndDate := Time.ofYearDay 2024 366,
    Timetable :=
      [{ StationCode := "A1", CityCode := "A", DepTime := timetableTime 1 14 },
       { StationCode := "B1", CityCode := "B", ArrTime := timetableTime 1 16 }],
    SeatPriceMap := [("SC", [6000])] }

/-- The order pool of `initGenerateID` with capacity 2 over a `config_id` value of 100,
after its first `pull`. -/
def smallPool : IDState :=
  { p := { capacity := 2, len := 2, pool := [100, 101], chanCap := 2, key := "order_id" },
    val := 102 }

/-- A night train: departure 22:00, calls at 02:00/03:00 and at 01:00/01:30, arrival at
05:00, all given as times of day of synthetic day 1. -/
def nightTrain : TranInfo :=
  { TranNum := "Z1", EnableStartDate := Time.ofYearDay 2024 1,
    EnableEndDate := Time.ofYearDay 2024 366,
    Timetable :=
      [{ StationCode := "A1", CityCode := "A", DepTime := timetableTime 1 22 },
       { StationCode := "B1", CityCode := "B", ArrTime := timetableTime 1 2,
         DepTime := timetableTime 1 3 },
       { StationCode := "C1", CityCode := "C", ArrTime := timetableTime 1 1,
         DepTime := ⟨(timetableTime 1 1).sec + 1800⟩ },
       { StationCode := "D1", CityCode := "D", ArrTime := timetableTime 1 5 }] }

/-- Schedule collaborators over `oneCarSchedule` whose car has no free seat but hands out
a standing slot. -/
def standingOps : ReleaseOps :=
  { oneCarOps with
    getAvailableSeat := fun _ _ _ _ _ => none,
    getAvailableNoSeat := fun c _ _ _ => some ({ SeatNum := "" }, c) }

/-! ## Properties -/

/-- C1, code defect: on the intercity train `C100` a query whose departure station code
`TJ9` is the code of no timetable entry (its city `TJ` is on the timetable, the date is
inside the enable window) is answered with `ok = true` and `depIdx = arrIdx = 0`; the
intercity branch of `IsMatchQuery` has no `depIdx >= arrIdx` rejection. -/
theorem C1_intercity_unknown_station_matches :
    trainC100.isIntercity = true ∧
    (∀ r ∈ trainC100.Timetable, r.StationCode ≠ "TJ9") ∧
    trainC100.IsMatchQuery { StationCode := "TJ9", CityCode := "TJ" }
      { StationCode := "BJ1", CityCode := "BJ" } (Time.ofYearDay 2024 10) =
      .ok { depIdx := 0, arrIdx := 0, depDate := some (Time.ofYearDay 2024 10), ok := true } := by
  refine ⟨by decide, by decide, by decide⟩

/-- C2, counterexample: on train `G1` with consecutive stations `X1`, `X2` in city `X`,
the city-only query `dep = X` does not get the index of the first station of `X`
(index 0) as `depIdx`; it gets index 1. -/
theorem C2_city_query_not_first_station :
    ¬ ∃ res, trainG1.IsMatchQuery { StationCode := "", CityCode := "X" }
        { StationCode := "Y1", CityCode := "Y" } (Time.ofYearDay 2024 10) = .ok res ∧
      res.depIdx = trainG1.Timetable.findIdx (fun r => r.CityCode = "X") := by
  rintro ⟨res, h, hidx⟩
  have h1 : trainG1.IsMatchQuery { StationCode := "", CityCode := "X" }
      { StationCode := "Y1", CityCode := "Y" } (Time.ofYearDay 2024 10) =
      .ok { depIdx := 1, arrIdx := 2, depDate := some (Time.ofYearDay 2024 10), ok := true } := by
    decide
  rw [h1] at h
  have h2 : trainG1.Timetable.findIdx (fun r => r.CityCode = "X") = 0 := by decide
  rw [h2] at hidx
  cases h
  exact absurd hidx (by decide)

/-- The departure scan passes over rows outside the departure city while no row of the
city has been seen. -/
theorem depScan_skip (depS : Station) (pre rest : List Route) (i : Int)
    (hpre : ∀ r ∈ pre, r.CityCode ≠ depS.CityCode) :
    depScan depS (pre ++ rest) i (-1) = depScan depS rest (i + pre.length) (-1) := by
  induction pre generalizing i with
  | nil => simp
  | cons r pre ih =>
    have hr : r.CityCode ≠ depS.CityCode := hpre r (by simp)
    have hrest : ∀ x ∈ pre, x.CityCode ≠ depS.CityCode := fun x hx => hpre x (by simp [hx])
    simp only [List.cons_append, depScan, hr, if_false, ne_eq, not_true_eq_false, false_and,
      List.length_cons, Nat.cast_add, Nat.cast_one, List.append_eq]
    rw [ih (i + 1) hrest]
    congr 1
    ring

/-- On a run of rows of the departure city, followed by nothing or by a row of another
city, the departure scan ends on the last row of the run, whatever the station codes. -/
theorem depScan_run (depS : Station) (run rest : List Route) (i d : Int) (hi : 0 ≤ i)
    (hrun : ∀ r ∈ run, r.CityCode = depS.CityCode) (hne : run ≠ [])
    (hrest : ∀ p ∈ rest.head?, p.CityCode ≠ depS.CityCode) :
    depScan depS (run ++ rest) i d = i + run.length - 1 := by
  induction run generalizing i d with
  | nil => exact absurd rfl hne
  | cons r run ih =>
    have hr : r.CityCode = depS.CityCode := hrun r (by simp)
    have htail : ∀ x ∈ run, x.CityCode = depS.CityCode := fun x hx => hrun x (by simp [hx])
    simp only [List.cons_append, depScan, hr, if_true, ite_self, List.length_cons,
      Nat.cast_add, Nat.cast_one, List.append_eq]
    cases run with
    | nil =>
      cases rest with
      | nil => simp [depScan]
      | cons p ps =>
        have hp : p.CityCode ≠ depS.CityCode := hrest p (by simp)
        have hi1 : i ≠ -1 := by omega
        simp [depScan, hp, hi1]
    | cons r2 run2 =>
      rw [ih (i + 1) i (by omega) htail (by simp)]
      simp only [List.length_cons, Nat.cast_add, Nat.cast_one]
      ring

/-- Conversion to `uint8` keeps a natural number below 256. -/
theorem toUint8_natCast (n : Nat) (h : n < 256) : toUint8 (n : Int) = n := by
  unfold toUint8
  omega

/-- The rows visited by the departure scan, for a timetable made of rows outside the
city, a run of rows of the city and at least one more row. -/
theorem depScan_timetable (depS : Station) (pre run post : List Route) (p : Route)
    (hpre : ∀ r ∈ pre, r.CityCode ≠ depS.CityCode)
    (hrun : ∀ r ∈ run, r.CityCode = depS.CityCode) (hne : run ≠ [])
    (hp : p.CityCode ≠ depS.CityCode) :
    depScan depS ((pre ++ run ++ p :: post).take ((pre ++ run ++ p :: post).length - 1)) 0 (-1)
      = ((pre.length + run.length - 1 : Nat) : Int) := by
  have hlen : 0 < run.length := List.length_pos.mpr hne
  rw [← List.dropLast_eq_take, List.append_assoc,
    List.dropLast_append_of_ne_nil _ (by simp),
    List.dropLast_append_of_ne_nil _ (by simp), depScan_skip depS pre _ 0 hpre,
    depScan_run depS run _ _ (-1) (by omega) hrun hne]
  · omega
  · intro q hq
    cases post with
    | nil => simp at hq
    | cons p2 ps =>
      simp only [List.dropLast_cons₂, List.head?_cons, Option.mem_def, Option.some.injEq] at hq
      rw [← hq]
      exact hp

/-- The tail of `IsMatchQuery` keeps the indices it is given. -/
theorem matchDate_depIdx (t : TranInfo) (queryDate : Time) (depIdx arrIdx : Nat)
    (h : depIdx < t.Timetable.length) :
    ∃ res, matchDate t queryDate depIdx arrIdx = .ok res ∧ res.depIdx = depIdx := by
  obtain ⟨r, hr⟩ : ∃ r, t.Timetable.get? depIdx = some r :=
    ⟨_, List.get?_eq_get h⟩
  unfold matchDate index
  rw [hr]
  simp only [bind, Except.bind, pure, Except.pure]
  split
  · exact ⟨_, rfl, rfl⟩
  · exact ⟨_, rfl, rfl⟩

/-- C2, amended: for a non-intercity train and a query date inside the enable window,
when the timetable consists of rows outside the departure city, then a run of
consecutive rows of the departure city none of which carries the queried station code,
then at least one row of another city, `IsMatchQuery` returns with `depIdx` the index of
the last row of that run. -/
theorem C2_depIdx_last_of_city_run (t : TranInfo) (depS arrS : Station) (queryDate : Time)
    (pre run post : List Route) (p : Route)
    (hnon : t.isIntercity = false)
    (hstart : queryDate.Before t.EnableStartDate = false)
    (hend : queryDate.After (t.EnableEndDate.AddDays t.RouteDepCrossDays) = false)
    (htt : t.Timetable = pre ++ run ++ p :: post)
    (hpre : ∀ r ∈ pre, r.CityCode ≠ depS.CityCode)
    (hrun : ∀ r ∈ run, r.CityCode = depS.CityCode) (hne : run ≠ [])
    (hp : p.CityCode ≠ depS.CityCode)
    (_hcode : ∀ r ∈ run, r.StationCode ≠ depS.StationCode)
    (hlen : t.Timetable.length ≤ 256) :
    ∃ res, t.IsMatchQuery depS arrS queryDate = .ok res ∧
      res.depIdx = pre.length + run.length - 1 := by
  have hrl : 0 < run.length := List.length_pos.mpr hne
  have hlt : pre.length + run.length - 1 < t.Timetable.length := by
    rw [htt]
    simp only [List.length_append, List.length_cons]
    omega
  have hscan := depScan_timetable depS pre run post p hpre hrun hne hp
  rw [← htt] at hscan
  have hu : toUint8 ((pre.length + run.length - 1 : Nat) : Int) = pre.length + run.length - 1 :=
    toUint8_natCast _ (by omega)
  unfold TranInfo.IsMatchQuery
  simp only [hstart, hend, hnon, Bool.or_self, Bool.false_eq_true, if_false, not_false_eq_true,
    if_true, hscan, hu]
  split
  · exact ⟨_, rfl, rfl⟩
  · exact matchDate_depIdx t queryDate _ _ hlt

/-- C2, witness: train `G1` and the city-only query `dep = X`: the run of city `X` is
`X1, X2` and `depIdx` is 1, the index of `X2`. -/
theorem C2_depIdx_last_of_city_run_witness :
    ∃ res, trainG1.IsMatchQuery { StationCode := "", CityCode := "X" }
        { StationCode := "Y1", CityCode := "Y" } (Time.ofYearDay 2024 10) = .ok res ∧
      res.depIdx = 1 :=
  C2_depIdx_last_of_city_run trainG1 { StationCode := "", CityCode := "X" }
    { StationCode := "Y1", CityCode := "Y" } (Time.ofYearDay 2024 10)
    [] [{ StationCode := "X1", CityCode := "X", DepTime := timetableTime 1 8 },
        { StationCode := "X2", CityCode := "X", ArrTime := timetableTime 1 9,
          DepTime := timetableTime 1 9 }] []
    { StationCode := "Y1", CityCode := "Y", ArrTime := timetableTime 1 12 }
    (by decide) (by decide) (by decide) (by decide) (by decide) (by decide) (by decide)
    (by decide) (by decide) (by decide)

/-- On train `G1` the query naming station `X1` (index 0) also gets `depIdx = 1`: the
nested station-code test of the departure scan assigns the index the scan has already
assigned, and the scan moves on to `X2`. -/
theorem IsMatchQuery_named_station_overridden :
    trainG1.IsMatchQuery { StationCode := "X1", CityCode := "X" }
      { StationCode := "Y1", CityCode := "Y" } (Time.ofYearDay 2024 10) =
      .ok { depIdx := 1, arrIdx := 2, depDate := some (Time.ofYearDay 2024 10), ok := true } := by
  decide

/-- The intercity scan changes nothing while no row carries the departure station
code. -/
theorem intercityScan_no_departure (depS arrS : Station) (rs : List Route) (i : Int)
    (depIdx arrIdx : Nat) (h : ∀ r ∈ rs, r.StationCode ≠ depS.StationCode) :
    intercityScan depS arrS rs i (-1, depIdx, arrIdx) = (-1, depIdx, arrIdx) := by
  induction rs generalizing i with
  | nil => rfl
  | cons r rs ih =>
    have hr : r.StationCode ≠ depS.StationCode := h r (by simp)
    simp only [intercityScan, hr, and_false, if_false, ne_eq, not_true_eq_false, false_and]
    exact ih (i + 1) (fun x hx => h x (by simp [hx]))

/-- On every daily intercity train with a non-empty timetable and every date inside the
enable window, a query whose departure station code is on no timetable row is answered
with `ok = true` and both indices 0. -/
theorem IsMatchQuery_intercity_no_departure (t : TranInfo) (depS arrS : Station)
    (queryDate : Time) (r : Route) (rs : List Route)
    (hcity : t.isIntercity = true)
    (hstart : queryDate.Before t.EnableStartDate = false)
    (hend : queryDate.After (t.EnableEndDate.AddDays t.RouteDepCrossDays) = false)
    (htt : t.Timetable = r :: rs)
    (hdaily : t.ScheduleDays ≤ 1)
    (hdep : ∀ x ∈ t.Timetable, x.StationCode ≠ depS.StationCode) :
    t.IsMatchQuery depS arrS queryDate =
      .ok { depIdx := 0, arrIdx := 0,
            depDate := some (queryDate.AddDays (1 - r.DepTime.Day)), ok := true } := by
  have hk : ¬ 1 < t.ScheduleDays := by omega
  have hscan := intercityScan_no_departure depS arrS t.Timetable 0 0 0 hdep
  have hget : t.Timetable.get? 0 = some r := by rw [htt]; rfl
  unfold TranInfo.IsMatchQuery
  simp only [hstart, hend, hcity, Bool.or_self, Bool.false_eq_true, if_false, not_true_eq_false,
    hscan, matchDate, index, hget, hk, false_and, bind, Except.bind, pure, Except.pure]

/-- The product `24 * ScheduleDays` does not wrap to zero for a cadence below `2 ^ 58`. -/
theorem wrapInt64_cadence_ne_zero (k : Int) (hk : 1 < k) (hk2 : k < 2 ^ 58) :
    wrapInt64 (24 * k) ≠ 0 := by
  unfold wrapInt64
  have h1 : (0 : Int) ≤ 24 * k + 2 ^ 63 := by positivity
  have h2 : 24 * k + 2 ^ 63 < 2 ^ 64 := by
    have h3 : (2 : Int) ^ 64 = 2 ^ 63 + 32 * 2 ^ 58 := by norm_num
    nlinarith
  rw [Int.emod_eq_of_lt h1 h2]
  intro h
  have h4 : 24 * k = 0 := by linarith
  omega

/-- The saturated difference of two instants is zero exactly when they are equal. -/
theorem Time.Sub_eq_zero_iff (a b : Time) : a.Sub b = 0 ↔ a = b := by
  cases a with | mk x =>
  cases b with | mk y =>
  simp only [Time.Sub, Time.minDuration, Time.maxDuration, Time.mk.injEq]
  split
  · constructor
    · intro h
      norm_num at h
    · intro h
      subst h
      simp at *
  · split
    · constructor
      · intro h
        norm_num at h
      · intro h
        subst h
        simp at *
    · constructor
      · intro h
        have h5 : x - y = 0 := by
          rcases mul_eq_zero.mp h with h | h
          · exact h
          · norm_num at h
        linarith
      · intro h
        subst h
        simp

/-- For a train that does not run daily, the tail of `IsMatchQuery` accepts a query
exactly when the effective departure date is `EnableStartDate` itself. -/
theorem matchDate_cadence (t : TranInfo) (queryDate : Time) (depIdx arrIdx : Nat) (r : Route)
    (hr : t.Timetable.get? depIdx = some r)
    (hk : 1 < t.ScheduleDays) (hk2 : t.ScheduleDays < 2 ^ 58) :
    matchDate t queryDate depIdx arrIdx =
      if queryDate.AddDays (1 - r.DepTime.Day) = t.EnableStartDate then
        .ok { depIdx := depIdx, arrIdx := arrIdx,
              depDate := some (queryDate.AddDays (1 - r.DepTime.Day)), ok := true }
      else .ok { depIdx := depIdx, arrIdx := arrIdx, depDate := none, ok := false } := by
  have hden : wrapInt64 (24 * t.ScheduleDays) ≠ 0 :=
    wrapInt64_cadence_ne_zero t.ScheduleDays hk hk2
  unfold matchDate index
  rw [hr]
  simp only [bind, Except.bind, pure, Except.pure, hoursQuotNonzero, hden, if_false, hk,
    true_and, decide_eq_true_eq, ne_eq, Time.Sub_eq_zero_iff]
  by_cases hd : queryDate.AddDays (1 - r.DepTime.Day) = t.EnableStartDate
  · simp [hd]
  · simp [hd]

/-- C3, code defect: train `K5` runs every 2 days from 2024-01-01. The query for
2024-01-03 passes the window and station checks (`depIdx = 0`, `arrIdx = 1`) and its
effective departure date lies 2 days, a whole multiple of the cadence, after
`enableStart`, yet `IsMatchQuery` answers `ok = false`: the test
`Hours() / float64(24*K) != 0` rejects every date other than `enableStart` itself,
which is the only date of the three that is matched. -/
theorem C3_every_second_day_aligned_date_rejected :
    ((Time.ofYearDay 2024 3).AddDays (1 - (timetableTime 1 8).Day)).dayNumber -
        trainK5.EnableStartDate.dayNumber = 1 * trainK5.ScheduleDays ∧
    trainK5.IsMatchQuery { StationCode := "A1", CityCode := "A" }
      { StationCode := "B1", CityCode := "B" } (Time.ofYearDay 2024 3) =
      .ok { depIdx := 0, arrIdx := 1, depDate := none, ok := false } ∧
    trainK5.IsMatchQuery { StationCode := "A1", CityCode := "A" }
      { StationCode := "B1", CityCode := "B" } (Time.ofYearDay 2024 2) =
      .ok { depIdx := 0, arrIdx := 1, depDate := none, ok := false } ∧
    trainK5.IsMatchQuery { StationCode := "A1", CityCode := "A" }
      { StationCode := "B1", CityCode := "B" } (Time.ofYearDay 2024 1) =
      .ok { depIdx := 0, arrIdx := 1, depDate := some (Time.ofYearDay 2024 1), ok := true } := by
  refine ⟨by decide, by decide, by decide, by decide⟩

/-- The rounds of `sort.Search` never run out: any two amounts of fuel of at least
`j - i` give the same result. -/
theorem searchLoop_fuel (f : Nat → Bool) (fuel1 fuel2 i j : Nat)
    (h1 : j - i ≤ fuel1) (h2 : j - i ≤ fuel2) :
    searchLoop f fuel1 i j = searchLoop f fuel2 i j := by
  induction fuel1 generalizing fuel2 i j with
  | zero =>
    have hij : ¬ i < j := by omega
    cases fuel2 <;> simp [searchLoop, hij]
  | succ n ih =>
    cases fuel2 with
    | zero =>
      have hij : ¬ i < j := by omega
      simp [searchLoop, hij]
    | succ m =>
      simp only [searchLoop]
      by_cases hij : i < j
      · simp only [hij, if_true]
        split
        · exact ih _ _ _ (by omega) (by omega)
        · exact ih _ _ _ (by omega) (by omega)
      · simp [hij]

/-- C4, code defect: with the one-train list `[G2]` (sorted), `getTranInfo "G1"` on a
date inside the window of `G2` returns the train `G2`, whose number is not `G1`, although
no entry has number `G1`; `getTranInfo "G2"` on a date after the window of `G2` does
not return not-found: `sort.Search` yields the list length, never -1, and indexing the
list there panics; and in the sorted list of the 2024 and 2025 configurations of `G1`
the lookup of `G1` on 2024-01-10 probes only the 2025 entry and panics in the same way,
although the 2024 entry is enabled and scheduled on that date. -/
theorem C4_getTranInfo_wrong_train_and_panic :
    (∀ t ∈ [trainG2], t.TranNum ≠ "G1") ∧
    getTranInfo [trainG2] "G1" (Time.ofYearDay 2024 10) = .ok (some trainG2) ∧
    getTranInfo [trainG2] "G2" (Time.ofYearDay 2025 10) = .error .indexOutOfRange ∧
    (trainG1.EnableStartDate.sec ≤ (Time.ofYearDay 2024 10).sec ∧
      (Time.ofYearDay 2024 10).sec ≤ trainG1.EnableEndDate.sec ∧
      ((Time.ofYearDay 2024 10).dayNumber - trainG1.EnableStartDate.dayNumber) %
        trainG1.ScheduleDays = 0) ∧
    getTranInfo [trainG1, trainG1Next] "G1" (Time.ofYearDay 2024 10) =
      .error .indexOutOfRange := by
  refine ⟨by decide, by decide, by decide, by decide, by decide⟩

/-- C5, code defect: second class on `G2` has segment prices `[100, 200, 300]`. For
`depIdx = 1`, `arrIdx = 2` the segment sum is 200, but `getOrderPrice` slices
`[depIdx : arrIdx-depIdx]`, the empty slice `[1:1]`, and returns 0; for `depIdx = 2`,
`arrIdx = 3` the slice `[2:1]` panics. From `depIdx = 0` the slice is the right one. -/
theorem C5_getOrderPrice_slices_to_difference :
    trainG2.getOrderPrice "SC" "1A" 1 2 = .ok 0 ∧
    trainG2.getOrderPrice "SC" "1A" 2 3 = .error .sliceBoundsOutOfRange ∧
    trainG2.getOrderPrice "SC" "1A" 0 3 = .ok 600 := by
  refine ⟨by decide, by decide, by decide⟩

/-- C6, code defect: second class on `G2` has segment prices `[100, 200, 300]`
(`L = 3`). For `depIdx = 0`, `arrIdx = 3` the segment sum is 600, but `getSeatPrice`
lowers `arrIdx` to `L - 1 = 2` and reports 300, the same as for `arrIdx = 2`. -/
theorem C6_getSeatPrice_drops_last_segment :
    trainG2.getSeatPrice 0 3 = .ok [("SC", 300)] ∧
    trainG2.getSeatPrice 0 2 = .ok [("SC", 300)] := by
  refine ⟨by decide, by decide⟩

/-- The condition of `hasTimeConflict` on windows of positive length: it holds exactly
when the windows share more than an instant, except when the candidate window contains
the window of the order and starts or ends together with it. -/
theorem timeConflictCond_iff (o : Order) (depTime arrTime : Time)
    (ho : o.DepTime.sec < o.ArrTime.sec) (hc : depTime.sec < arrTime.sec) :
    timeConflictCond o depTime arrTime = true ↔
      (o.DepTime.sec < arrTime.sec ∧ depTime.sec < o.ArrTime.sec) ∧
      ¬ (depTime.sec ≤ o.DepTime.sec ∧ o.ArrTime.sec ≤ arrTime.sec ∧
          (depTime.sec = o.DepTime.sec ∨ arrTime.sec = o.ArrTime.sec)) := by
  simp only [timeConflictCond, Time.Before, Bool.or_eq_true, Bool.and_eq_true,
    decide_eq_true_eq]
  omega

/-- C7, code defect: passenger 7 holds a Paid order for 08:00 to 10:00 on 2024-01-10.
For a candidate journey with exactly the same window the windows intersect, yet the
condition of `hasTimeConflict` is false for that order and `hasTimeConflict` reports no
conflict: its three strict alternatives leave out windows with a common end point. -/
theorem C7_identical_window_not_a_conflict :
    paidOrder.Status ∈ availOrdreStatus ∧
    paidOrder.DepTime.sec < paidOrder.ArrTime.sec ∧
    windowsIntersect paidOrder.DepTime paidOrder.ArrTime paidOrder.DepTime paidOrder.ArrTime ∧
    timeConflictCond paidOrder paidOrder.DepTime paidOrder.ArrTime = false ∧
    hasTimeConflict { orders := [paidOrder] } 7 paidOrder.DepTime paidOrder.ArrTime = false := by
  refine ⟨by decide, by decide, by decide, by decide, by decide⟩

/-- C8, code defect: user 3 has no order at all and no cancellation today, yet
`SubmitOrder` returns the unpaid-order-exists error: `hasUnpayOrder` counts the orders
with `status = 0`, which is the value of no order status (`constOrderStatusUnpay` is 1),
and returns `count == 0`. -/
theorem C8_submit_rejected_without_unpaid_order :
    isCancelTimesInLimit {} (Time.ofYearDay 2024 5) 3 = true ∧
    hasUnpayOrder {} 3 = true ∧
    SubmitOrder emptyScheduleOps {} [trainG2] (Time.ofYearDay 2024 5) "G2"
      (Time.ofYearDay 2024 10) 0 1 3 7 false "SC" = .ok (.inl .unpayOrderExists) := by
  refine ⟨by decide, by decide, by decide⟩

/-- C9, code defect: for an order in status Cancelled, with the amount equal to the
price, `Payment` returns no error, calls the payment collaborator once and sets the
status to Paid: the `switch` at its head rejects only Paid, UnpaidTimeout, Changed and
Issued. -/
theorem C9_cancelled_order_is_paid :
    cancelledOrder.Payment paymentAccepts (Time.ofYearDay 2024 5) 1 "acct" 5000 =
      { err := none,
        order := { cancelledOrder with PayType := 1, PayAccount := "acct",
                                       PayTime := Time.ofYearDay 2024 5,
                                       Status := constOrderStatusPaid },
        calls := [⟨2, 3, 1, "acct", 5000⟩] } := by
  decide

/-- C10, counterexample: for an order in status ChangeUnpaid, with the amount equal to
the price and the collaborator succeeding, `Payment` succeeds but the status it leaves
is not ChangePaid. -/
theorem C10_change_unpaid_not_change_paid :
    (changeUnpaidOrder.Payment paymentAccepts (Time.ofYearDay 2024 5) 1 "acct" 5000).err = none ∧
    ¬ (changeUnpaidOrder.Payment paymentAccepts (Time.ofYearDay 2024 5) 1 "acct" 5000).order.Status
        = constOrderStatusChangePaid := by
  refine ⟨by decide, by decide⟩

/-- C10, amended: for an order in status Unpaid or ChangeUnpaid, when the amount equals
the price of the order and the payment collaborator succeeds, `Payment` returns no error
after one call of the collaborator, records `payType`, `payAccount` and the pay time, and
sets the status to Paid in both cases; no other field changes. -/
theorem C10_payment_sets_paid (o : Order) (payment : PaymentCall → Option String) (now : Time)
    (payType : Nat) (payAccount : String) (price : Int)
    (hstatus : o.Status = constOrderStatusUnpay ∨ o.Status = constOrderStatusChangeUnPay)
    (hprice : price = o.Price)
    (hpay : payment ⟨o.ID, o.UserID, payType, payAccount, o.Price⟩ = none) :
    o.Payment payment now payType payAccount price =
      { err := none,
        order := { o with PayType := payType, PayAccount := payAccount, PayTime := now,
                          Status := constOrderStatusPaid },
        calls := [⟨o.ID, o.UserID, payType, payAccount, o.Price⟩] } := by
  have hs : paymentStatusError o.Status = none := by
    rcases hstatus with h | h <;> rw [h] <;> decide
  unfold Order.Payment
  rw [hs]
  simp [hprice, hpay]

/-- C10, witness: the ChangeUnpaid order of 50 yuan, paid in full. -/
theorem C10_payment_sets_paid_witness :
    (changeUnpaidOrder.Payment paymentAccepts (Time.ofYearDay 2024 5) 1 "acct" 5000).order.Status
      = constOrderStatusPaid :=
  congrArg (fun r => r.order.Status)
    (C10_payment_sets_paid changeUnpaidOrder paymentAccepts (Time.ofYearDay 2024 5) 1 "acct" 5000
      (Or.inr (by decide)) (by decide) (by decide))

/-- Whenever `CancelOrder` returns, the order it leaves is the given order with status
Cancelled, whatever the status was. -/
theorem CancelOrder_order (o : Order) (ops : ReleaseOps) (r : CancelResult)
    (h : o.CancelOrder ops = .ok r) :
    r.order = { o with Status := constOrderStatusCancelled } := by
  unfold Order.CancelOrder at h
  cases hf : findCar o.CarNum (ops.scheduleOf o.TranNum o.TranDepDate).Cars 0 with
  | none =>
    simp only [hf] at h
    cases h
  | some ic =>
    simp only [hf] at h
    injection h with h
    rw [← h]

/-- C11, code defect: the Paid order `paidSeatOrder` is refunded with a collaborator
that succeeds. `Refund` returns `nil` after one refund of the price, and the status it
leaves is Cancelled (3), the value `CancelOrder` assigns, not Refunded (5). -/
theorem C11_refund_leaves_cancelled :
    (paidSeatOrder.Refund oneCarOps refundAccepts).map
        (fun r => (r.err, r.cancelled.order.Status, r.calls)) =
      .ok (none, constOrderStatusCancelled, [⟨5, 3, 1, "acct", 10000⟩]) ∧
    constOrderStatusCancelled ≠ constOrderStatusRefund := by
  refine ⟨by decide, by decide⟩

/-- C12, code defect: `CancelOrder` on the Paid order `paidSeatOrder` returns with the
status Cancelled, and releases seat `1A` and the car, although the order was not
Unpaid. -/
theorem C12_cancel_paid_order_sets_cancelled :
    paidSeatOrder.Status = constOrderStatusPaid ∧
    (paidSeatOrder.CancelOrder oneCarOps).map (fun r => (r.order.Status, r.log)) =
      .ok (constOrderStatusCancelled, [.seat "1A" 3, .car 1 0 2]) := by
  refine ⟨by decide, by decide⟩

/-- C13: `CheckIn` leaves every field other than the status as it was; the status after
is Issued when it was Paid or ChangePaid and is the old status otherwise; so the status
changes exactly when it was Paid or ChangePaid. -/
theorem C13_checkIn (o : Order) :
    { o.CheckIn with Status := o.Status } = o ∧
    o.CheckIn.Status =
      (if o.Status = constOrderStatusPaid ∨ o.Status = constOrderStatusChangePaid then
        constOrderStatusIssued else o.Status) ∧
    (o.CheckIn.Status ≠ o.Status ↔
      (o.Status = constOrderStatusPaid ∨ o.Status = constOrderStatusChangePaid)) := by
  unfold Order.CheckIn
  by_cases h : o.Status = constOrderStatusPaid ∨ o.Status = constOrderStatusChangePaid
  · simp only [h, if_true, iff_true, true_and]
    rcases h with h | h <;> rw [h] <;> decide
  · simp [h]

/-- Indexing with the `int` value -1 panics. -/
theorem indexInt_neg_one {α : Type} (l : List α) (a : α) : indexInt l (-1) ≠ .ok a := by
  simp [indexInt]

/-- No call of `Change` returns success: once a seat or standing slot is locked, the
order literal reads `scheduleTran.Cars[-1]`. -/
theorem Change_never_succeeds (o : Order) (ops : ScheduleOps) (db : DB)
    (tranInfos : List TranInfo) (now : Time) (tranNum : String) (date : Time)
    (depIdx arrIdx userID passengerID : Nat) (isStudent : Bool) (seatType : String)
    (c : Changed) :
    o.Change ops db tranInfos now tranNum date depIdx arrIdx userID passengerID isStudent
      seatType ≠ .ok (.inr c) := by
  intro h
  unfold Order.Change at h
  simp only [bind, Except.bind, pure, Except.pure] at h
  repeat' split at h
  all_goals first
    | (exfalso; exact indexInt_neg_one _ _ (by assumption))
    | cases h

/-- C14, code defect: the Paid order `paidSeatOrder` (100 yuan, no earlier rebooking) is
rebooked to train `G6` (60 yuan), where seat `1B` is free. With an order table holding
only that order, `Change` returns the unpaid-order-exists error; with an extra row of
status 0 for the user, which lets that check pass, `Change` locks the seat and then
panics on `scheduleTran.Cars[carIdx]` with `carIdx = -1`. -/
theorem C14_change_fails_or_panics :
    paidSeatOrder.Change oneCarOps.toScheduleOps { orders := [paidSeatOrder] } [trainG6]
      (Time.ofYearDay 2024 5) "G6" (Time.ofYearDay 2024 12) 0 1 3 7 false "SC" =
      .ok (.inl .unpayOrderExists) ∧
    paidSeatOrder.Change oneCarOps.toScheduleOps { orders := [paidSeatOrder, statusZeroOrder] }
      [trainG6] (Time.ofYearDay 2024 5) "G6" (Time.ofYearDay 2024 12) 0 1 3 7 false "SC" =
      .error .indexOutOfRange := by
  refine ⟨by decide, by decide⟩

/-- The timeout closure does nothing to an order that is not Unpaid. -/
theorem unpayTimeout_of_ne (ops : ReleaseOps) (s : TimeoutState)
    (h : s.order.Status ≠ constOrderStatusUnpay) : unpayTimeout ops s = s := by
  simp [unpayTimeout, h]

/-- C15: the timeout closure is idempotent on every state (order, seat, car and release
calls); on an order that is still Unpaid it sets the status to UnpaidTimeout, changes no
other field of the order and makes the two release calls once; on an order in any other
status it changes nothing at all. -/
theorem C15_unpayTimeout_idempotent (ops : ReleaseOps) (s : TimeoutState) :
    unpayTimeout ops (unpayTimeout ops s) = unpayTimeout ops s ∧
    (s.order.Status = constOrderStatusUnpay →
      (unpayTimeout ops s).order.Status = constOrderStatusTimeout ∧
      (unpayTimeout ops s).order = { s.order with Status := constOrderStatusTimeout } ∧
      (unpayTimeout ops s).log = s.log ++
        [.seat s.seat.SeatNum (ops.countSeatBit s.order.DepStationIdx s.order.ArrStationIdx),
          .car s.car.CarNum s.order.DepStationIdx s.order.ArrStationIdx]) ∧
    (s.order.Status ≠ constOrderStatusUnpay → unpayTimeout ops s = s) := by
  have hne : s.order.Status ≠ constOrderStatusUnpay → unpayTimeout ops s = s :=
    unpayTimeout_of_ne ops s
  have hunpay : s.order.Status = constOrderStatusUnpay →
      (unpayTimeout ops s).order.Status = constOrderStatusTimeout ∧
      (unpayTimeout ops s).order = { s.order with Status := constOrderStatusTimeout } ∧
      (unpayTimeout ops s).log = s.log ++
        [.seat s.seat.SeatNum (ops.countSeatBit s.order.DepStationIdx s.order.ArrStationIdx),
          .car s.car.CarNum s.order.DepStationIdx s.order.ArrStationIdx] := by
    intro h
    simp [unpayTimeout, h]
  refine ⟨?_, hunpay, hne⟩
  by_cases h : s.order.Status = constOrderStatusUnpay
  · have h2 : (unpayTimeout ops s).order.Status ≠ constOrderStatusUnpay := by
      rw [(hunpay h).1]
      decide
    exact unpayTimeout_of_ne ops _ h2
  · rw [hne h, hne h]

/-- C15, witness: on the Unpaid order the closure sets UnpaidTimeout and makes the two
release calls once, and a second run adds nothing. -/
theorem C15_unpayTimeout_idempotent_witness :
    (unpayTimeout oneCarOps unpaidTimeoutState).order.Status = constOrderStatusTimeout ∧
    (unpayTimeout oneCarOps (unpayTimeout oneCarOps unpaidTimeoutState)).log =
      [.seat "1A" 3, .car 1 0 2] :=
  ⟨((C15_unpayTimeout_idempotent oneCarOps unpaidTimeoutState).2.1 (by decide)).1,
   by rw [(C15_unpayTimeout_idempotent oneCarOps unpaidTimeoutState).1]; decide⟩

/-- The shifted identifier is a multiple of 16 below `2 ^ 64`. -/
theorem shiftLeft_four_mod (n : Nat) : (n <<< 4) % 2 ^ 64 = 2 ^ 4 * (n % 2 ^ 60) := by
  rw [Nat.shiftLeft_eq]
  omega

/-- On a multiple of 16 and a value below 16, exclusive or and or agree. -/
theorem xor_low_eq_or (k m : Nat) (hm : m < 2 ^ 4) :
    (2 ^ 4 * k) ^^^ m = (2 ^ 4 * k) ||| m := by
  apply Nat.eq_of_testBit_eq
  intro i
  rw [Nat.testBit_xor, Nat.testBit_or]
  by_cases hi : i < 4
  · have h1 : (2 ^ 4 * k).testBit i = false := by
      rw [Nat.testBit_mul_pow_two]
      simp [hi]
    rw [h1]
    simp
  · have h2 : m.testBit i = false := by
      apply Nat.testBit_lt_two_pow
      calc m < 2 ^ 4 := hm
        _ ≤ 2 ^ i := Nat.pow_le_pow_right (by decide) (by omega)
    rw [h2]
    simp

/-- The sends of `pull` go through when the channel has room for all of them. -/
theorem pullLoop_some (chanCap offset : Nat) (n i : Nat) (pool : List Nat)
    (h : pool.length + n ≤ chanCap) :
    ∃ filled, pullLoop chanCap offset n i pool = some filled := by
  induction n generalizing i pool with
  | zero => exact ⟨pool, rfl⟩
  | succ n ih =>
    have hlt : pool.length < chanCap := by omega
    simp only [pullLoop, hlt, if_true]
    apply ih
    simp only [List.length_append, List.length_singleton]
    omega

/-- C19: when `n` is the identifier at the head of the pool (and, if this call is the one
that refills, the channel has room for the refill), `getIDByModel` returns
`(n << 4) | (baseID mod 10)` taken modulo `2 ^ 64`; the low four bits of that value are
`baseID mod 10`, and for `n < 2 ^ 60` shifting it right by 4 gives `n` back. -/
theorem C19_getIDByModel (s : IDState) (n : Nat) (rest : List Nat) (baseID : Nat)
    (hpool : s.p.pool = n :: rest)
    (hroom : s.p.len - 1 = 0 → rest.length + s.p.capacity.toNat ≤ s.p.chanCap) :
    ∃ s1, s.getIDByModel baseID = some (((n <<< 4) % 2 ^ 64) ||| (baseID % 10), s1) ∧
      (((n <<< 4) % 2 ^ 64) ||| (baseID % 10)) % 16 = baseID % 10 ∧
      (n < 2 ^ 60 → (((n <<< 4) % 2 ^ 64) ||| (baseID % 10)) >>> 4 = n) := by
  have hm : baseID % 10 < 2 ^ 4 := by omega
  have hxor : ((n <<< 4) % 2 ^ 64) ^^^ (baseID % 10) =
      ((n <<< 4) % 2 ^ 64) ||| (baseID % 10) := by
    rw [shiftLeft_four_mod]
    exact xor_low_eq_or _ _ hm
  have hsum : ((n <<< 4) % 2 ^ 64) ||| (baseID % 10) =
      2 ^ 4 * (n % 2 ^ 60) + baseID % 10 := by
    rw [shiftLeft_four_mod]
    exact (Nat.mul_add_lt_is_or hm _).symm
  have hret : ∃ s1, s.getIDByModel baseID =
      some (((n <<< 4) % 2 ^ 64) ||| (baseID % 10), s1) := by
    unfold IDState.getIDByModel
    rw [hpool]
    simp only [hxor]
    split
    · rename_i hlen
      obtain ⟨filled, hf⟩ :=
        pullLoop_some s.p.chanCap s.val s.p.capacity.toNat 0 rest (hroom hlen)
      simp only [IDState.pull, hf]
      exact ⟨_, rfl⟩
    · exact ⟨_, rfl⟩
  obtain ⟨s1, hs1⟩ := hret
  refine ⟨s1, hs1, ?_, ?_⟩
  · rw [hsum]
    omega
  · intro hn
    rw [hsum, Nat.shiftRight_eq_div_pow]
    omega

/-- C19, witness: the pool holds 100 and 101; for `baseID = 37` the call returns
`100 * 16 + 7 = 1607`. -/
theorem C19_getIDByModel_witness :
    ∃ s1, smallPool.getIDByModel 37 = some (1607, s1) ∧ 1607 % 16 = 37 % 10 ∧
      ((100 : Nat) < 2 ^ 60 → 1607 >>> 4 = 100) :=
  C19_getIDByModel smallPool 100 [101] 37 (by decide) (by decide)

/-- Once `len` is zero or below, `getID` takes an identifier without refilling, and `len`
stays below zero. -/
theorem getID_no_refill (s : IDState) (id : Nat) (rest : List Nat) (hlen : s.p.len ≤ 0)
    (hpool : s.p.pool = id :: rest) :
    s.getID = some (id, { s with p := { s.p with pool := rest, len := s.p.len - 1 } }) := by
  have hne : ¬ s.p.len - 1 = 0 := by omega
  unfold IDState.getID
  rw [hpool]
  simp only [hne, if_false]

/-- C20, code defect: a pool of capacity 2 is initialised over the value 100 and holds
`[100, 101]`. The second `getID` drains it and refills it with `[102, 103]`, but `pull`
does not set `len` back to the capacity: `len` goes on to -1 and -2, the test
`p.len == 0` is never true again, after the fourth call the pool is empty without a
refill, and the fifth call blocks on the empty channel. -/
theorem C20_pool_refilled_only_once :
    initIDPool 2 "order_id" 100 = some smallPool ∧
    (getIDs 2 smallPool).map (fun s => (s.p.pool, s.p.len)) = some ([102, 103], 0) ∧
    (getIDs 4 smallPool).map (fun s => (s.p.pool, s.p.len)) = some ([], -2) ∧
    (getIDs 4 smallPool).bind (fun s => s.getID) = none := by
  refine ⟨by decide, by decide, by decide, by decide⟩

/-- Adding zero days changes nothing. -/
theorem Time.AddDays_zero (t : Time) : t.AddDays 0 = t := by
  cases t
  simp [Time.AddDays]

/-- The loop of `initTimetable` keeps the number of rows. -/
theorem initTimetableLoop_length (day : Int) (prev : Route) (rows : List Route) :
    (initTimetableLoop day prev rows).length = rows.length := by
  induction rows generalizing day prev with
  | nil => rfl
  | cons r rs ih =>
    cases rs with
    | nil => rfl
    | cons r2 rs2 =>
      simp only [initTimetableLoop, List.length_cons]
      rw [ih]
      rfl

/-- Loop invariant of `initTimetable`: when the departure of the row before lies on day
`day` and the rows to come carry times of day, the rows the loop produces are in order. -/
theorem initTimetableLoop_normalized (b : Int) (rows : List Route) (day : Int) (prev : Route)
    (hprev : b + 86400 * day ≤ prev.DepTime.sec ∧ prev.DepTime.sec < b + 86400 * (day + 1))
    (hrows : ∀ r ∈ rows, r.onDay b) :
    Normalized prev (initTimetableLoop day prev rows) := by
  induction rows generalizing day prev with
  | nil => trivial
  | cons r rs ih =>
    have hr : r.onDay b := hrows r (by simp)
    obtain ⟨⟨ha1, ha2⟩, ⟨hd1, hd2⟩⟩ := hr
    cases rs with
    | nil =>
      simp only [initTimetableLoop, Normalized, Time.Before, Time.AddDays, ne_eq,
        not_true_eq_false, false_implies, and_true, decide_eq_true_eq]
      split <;> simp only <;> omega
    | cons r2 rs2 =>
      have htail : ∀ x ∈ r2 :: rs2, x.onDay b := fun x hx => hrows x (by simp [hx])
      simp only [initTimetableLoop, Normalized, Time.Before, Time.AddDays, decide_eq_true_eq]
      refine ⟨?_, ?_, ?_⟩
      · split <;> simp only <;> omega
      · intro _
        split <;> split <;> dsimp only at * <;> omega
      · apply ih _ _ _ htail
        simp only
        split <;> split <;> simp only <;> omega

/-- The order of the times, read off row by row: for the timetable `p0 :: l`, row `i + 1`
arrives no earlier than row `i` departs, and every row after the first and before the
last departs no earlier than it arrives. -/
theorem Normalized_get (l : List Route) (p0 : Route) (h : Normalized p0 l) :
    (∀ i p r, (p0 :: l).get? i = some p → (p0 :: l).get? (i + 1) = some r →
      p.DepTime.sec ≤ r.ArrTime.sec) ∧
    (∀ i r, (p0 :: l).get? (i + 1) = some r → i + 2 < (p0 :: l).length →
      r.ArrTime.sec ≤ r.DepTime.sec) := by
  induction l generalizing p0 with
  | nil =>
    constructor
    · intro i p r _ hr
      simp at hr
    · intro i r hr
      simp at hr
  | cons r0 rs ih =>
    obtain ⟨h1, h2, h3⟩ := h
    obtain ⟨ih1, ih2⟩ := ih r0 h3
    constructor
    · intro i p r hp hr
      cases i with
      | zero =>
        simp only [List.get?_cons_zero, Option.some.injEq, List.get?_cons_succ] at hp hr
        rw [← hp, ← hr]
        exact h1
      | succ j =>
        simp only [List.get?_cons_succ] at hp hr
        exact ih1 j p r hp hr
    · intro i r hr hlen
      cases i with
      | zero =>
        simp only [List.get?_cons_succ, List.get?_cons_zero, Option.some.injEq] at hr
        rw [← hr]
        apply h2
        intro hnil
        rw [hnil] at hlen
        simp at hlen
      | succ j =>
        simp only [List.get?_cons_succ] at hr
        apply ih2 j r hr
        simp only [List.length_cons] at hlen ⊢
        omega

/-- On rows that are already in order the loop of `initTimetable`, started with the day
counter at 0, changes nothing. -/
theorem initTimetableLoop_of_normalized (l : List Route) (prev : Route)
    (h : Normalized prev l) : initTimetableLoop 0 prev l = l := by
  induction l generalizing prev with
  | nil => rfl
  | cons r rs ih =>
    obtain ⟨h1, h2, h3⟩ := h
    have hb1 : (r.ArrTime.Before prev.DepTime) = false := by
      simp only [Time.Before, decide_eq_false_iff_not]
      omega
    cases rs with
    | nil =>
      simp only [initTimetableLoop, Time.AddDays_zero, hb1, Bool.false_eq_true, if_false]
    | cons r2 rs2 =>
      have hb2 : (r.DepTime.Before r.ArrTime) = false := by
        have h4 := h2 (by simp)
        simp only [Time.Before, decide_eq_false_iff_not]
        omega
      simp only [initTimetableLoop, Time.AddDays_zero, hb1, hb2, Bool.false_eq_true, if_false]
      rw [ih r h3]

/-- C16: for a timetable of at least two rows whose raw times are all times of day of one
synthetic day (starting at second `b`), `initTimetable` returns, keeps the number of rows,
and leaves the times in order: each row arrives no earlier than the row before departs,
and each intermediate row departs no earlier than it arrives. -/
theorem C16_initTimetable_ordered (t : TranInfo) (b : Int)
    (hN : 2 ≤ t.Timetable.length)
    (hday : ∀ r ∈ t.Timetable, r.onDay b) :
    ∃ t1, t.initTimetable = .ok t1 ∧ t1.Timetable.length = t.Timetable.length ∧
      (∀ i p r, t1.Timetable.get? i = some p → t1.Timetable.get? (i + 1) = some r →
        p.DepTime.sec ≤ r.ArrTime.sec) ∧
      (∀ i r, 1 ≤ i → i + 1 < t1.Timetable.length → t1.Timetable.get? i = some r →
        r.ArrTime.sec ≤ r.DepTime.sec) := by
  cases htt : t.Timetable with
  | nil =>
    rw [htt] at hN
    simp at hN
  | cons r0 rs =>
    rw [htt] at hday
    have h0 : r0.onDay b := hday r0 (by simp)
    have hnorm : Normalized r0 (initTimetableLoop 0 r0 rs) :=
      initTimetableLoop_normalized b rs 0 r0 (by have := h0.2; omega)
        (fun r hr => hday r (by simp [hr]))
    obtain ⟨hn1, hn2⟩ := Normalized_get _ _ hnorm
    refine ⟨_, by unfold TranInfo.initTimetable; rw [htt], ?_, ?_, ?_⟩
    · simp only [List.length_cons, initTimetableLoop_length]
    · exact hn1
    · intro i r hi hlen hr
      cases i with
      | zero => omega
      | succ j =>
        apply hn2 j r hr
        simp only [List.length_cons] at hlen ⊢
        omega

/-- C16, witness: the night train. After `initTimetable` its rows are, in hours from the
start of synthetic day 1, arrival/departure 0/22, 26/27, 49/49.5 and 53/0. -/
theorem C16_initTimetable_ordered_witness :
    ∃ t1, nightTrain.initTimetable = .ok t1 ∧
      t1.Timetable.length = nightTrain.Timetable.length ∧
      (∀ i p r, t1.Timetable.get? i = some p → t1.Timetable.get? (i + 1) = some r →
        p.DepTime.sec ≤ r.ArrTime.sec) ∧
      (∀ i r, 1 ≤ i → i + 1 < t1.Timetable.length → t1.Timetable.get? i = some r →
        r.ArrTime.sec ≤ r.DepTime.sec) :=
  C16_initTimetable_ordered nightTrain 0 (by decide) (by decide)

/-- C17: for a timetable of at least two rows whose raw times are all times of day of one
synthetic day, `initTimetable` returns a train on which a second `initTimetable` returns
the very same train: same timetable, same `RouteDepCrossDays`. -/
theorem C17_initTimetable_idempotent (t : TranInfo) (b : Int)
    (hN : 2 ≤ t.Timetable.length)
    (hday : ∀ r ∈ t.Timetable, r.onDay b) :
    ∃ t1, t.initTimetable = .ok t1 ∧ t1.initTimetable = .ok t1 := by
  cases htt : t.Timetable with
  | nil =>
    rw [htt] at hN
    simp at hN
  | cons r0 rs =>
    rw [htt] at hday
    have h0 : r0.onDay b := hday r0 (by simp)
    have hnorm : Normalized r0 (initTimetableLoop 0 r0 rs) :=
      initTimetableLoop_normalized b rs 0 r0 (by have := h0.2; omega)
        (fun r hr => hday r (by simp [hr]))
    have hid := initTimetableLoop_of_normalized _ _ hnorm
    refine ⟨_, by unfold TranInfo.initTimetable; rw [htt], ?_⟩
    unfold TranInfo.initTimetable
    simp only [hid]

/-- C17, witness: normalising the night train twice gives what normalising it once
gives. -/
theorem C17_initTimetable_idempotent_witness :
    ∃ t1, nightTrain.initTimetable = .ok t1 ∧ t1.initTimetable = .ok t1 :=
  C17_initTimetable_idempotent nightTrain 0 (by decide) (by decide)

/-- Whenever `CancelOrder` returns, it has called `releaseSeat` on the car, whatever the
status of the order was. -/
theorem CancelOrder_releases (o : Order) (ops : ReleaseOps) (r : CancelResult)
    (h : o.CancelOrder ops = .ok r) :
    ∃ carNum, ReleaseCall.car carNum o.DepStationIdx o.ArrStationIdx ∈ r.log := by
  unfold Order.CancelOrder at h
  cases hf : findCar o.CarNum (ops.scheduleOf o.TranNum o.TranDepDate).Cars 0 with
  | none =>
    simp only [hf] at h
    cases h
  | some ic =>
    simp only [hf] at h
    injection h with h
    rw [← h]
    exact ⟨ic.2.CarNum, by simp⟩

/-- C21, code defect: the Unpaid order of `unpaidTimeoutState` holds seat `1A` of car 1 on
segments 0 and 1. When the timer fires first and `CancelOrder` follows, the seat and the
car are released twice and the status UnpaidTimeout is overwritten by Cancelled:
`CancelOrder` has no status test. In the other order the timer finds the order Cancelled
and the release happens once. -/
theorem C21_timeout_then_cancel_releases_twice :
    unpaidTimeoutState.order.Status = constOrderStatusUnpay ∧
    (timeoutThenCancel oneCarOps unpaidTimeoutState).map (fun r => (r.1.Status, r.2)) =
      .ok (constOrderStatusCancelled,
        [.seat "1A" 3, .car 1 0 2, .seat "1A" 3, .car 1 0 2]) ∧
    (cancelThenTimeout oneCarOps unpaidTimeoutState).map (fun r => (r.1.Status, r.2)) =
      .ok (constOrderStatusCancelled, [.seat "1A" 3, .car 1 0 2]) := by
  refine ⟨by decide, by decide, by decide⟩

/-- C22, code defect: for the configuration of `G2` starting 2024-01-01 and that of `G1`
starting 2025-01-01, `Less` holds in both directions (by the start date one way, by the
train number the other), so it is not asymmetric and is not the lexicographic order,
under which `G2` is not below `G1`; and sorting the list `[G1, G2]`, which is ordered by
train number, swaps it into `[G2, G1]`. -/
theorem C22_less_holds_both_ways :
    tranCfgs.Less [trainG2, trainG1Next] 0 1 = .ok true ∧
    tranCfgs.Less [trainG2, trainG1Next] 1 0 = .ok true ∧
    ¬ specLexLess trainG2 trainG1Next ∧
    specLexLess trainG1Next trainG2 ∧
    insertionSort lessTran [trainG1Next, trainG2] = [trainG2, trainG1Next] := by
  refine ⟨by decide, by decide, by decide, by decide, by decide⟩

/-- The loop of `initTimetable` leaves the departure time of the last row as it was. -/
theorem initTimetableLoop_last_dep (rows : List Route) (day : Int) (prev d : Route) :
    ((initTimetableLoop day prev rows).getLastD d).DepTime = (rows.getLastD d).DepTime := by
  induction rows generalizing day prev d with
  | nil => rfl
  | cons r rs ih =>
    cases rs with
    | nil => rfl
    | cons r2 rs2 =>
      simp only [initTimetableLoop, List.getLastD_cons]
      rw [ih]
      simp only [List.getLastD_cons]

/-- The year day of an instant of the first synthetic day is 1. -/
theorem Time.YearDay_first_day (t : Time) (h0 : 0 ≤ t.sec) (h1 : t.sec < 86400) :
    t.YearDay = 1 := by
  have hd : t.dayNumber = 0 := by
    unfold Time.dayNumber
    omega
  unfold Time.YearDay Time.Year
  rw [hd]
  decide

/-- For every timetable of at least two rows whose raw times lie on the first synthetic
day, `initTimetable` sets `RouteDepCrossDays` to 0: it reads the departure time of the
last row, which the loop never moves. -/
theorem initTimetable_crossDays_zero (t : TranInfo) (hN : 2 ≤ t.Timetable.length)
    (hday : ∀ r ∈ t.Timetable, r.onDay 0) :
    ∃ t1, t.initTimetable = .ok t1 ∧ t1.RouteDepCrossDays = 0 := by
  cases htt : t.Timetable with
  | nil =>
    rw [htt] at hN
    simp at hN
  | cons r0 rs =>
    rw [htt] at hday
    refine ⟨_, by unfold TranInfo.initTimetable; rw [htt], ?_⟩
    simp only
    rw [List.getLast_eq_getLastD, initTimetableLoop_last_dep]
    have hmem : rs.getLastD r0 ∈ r0 :: rs := by
      rw [← List.getLast_eq_getLastD r0 rs (List.cons_ne_nil _ _)]
      exact List.getLast_mem _
    have hlast := (hday _ hmem).2
    rw [Time.YearDay_first_day _ (by omega) (by omega)]
    rfl

/-- C23, code defect: on the night train the last route segment leaves station `C1` (row
2 of 4) at 01:30 of synthetic day 3, two days after the day of the origin's departure,
but `initTimetable` sets `RouteDepCrossDays` to 0: it reads `Timetable[len-1]`, the
terminus, whose departure time is never reset. -/
theorem C23_routeDepCrossDays_reads_terminus :
    nightTrain.initTimetable.map (fun t =>
        (t.RouteDepCrossDays,
          (t.Timetable.get? (t.Timetable.length - 2)).map (fun r =>
            r.DepTime.dayNumber - (timetableTime 1 22).dayNumber))) =
      .ok (0, some 2) := by
  decide

/-- C24, code defect: rebooking `paidSeatOrder` to train `G6` with the unpaid-order check
passed. The schedule has one car, at index 0, and the seat loop locks seat `1B` there (or,
with `standingOps`, the standing loop a slot there); the order literal then reads
`scheduleTran.Cars[carIdx]` with the outer `carIdx = -1` and `Change` panics with index
out of range. -/
theorem C24_change_index_out_of_range :
    oneCarSchedule.Cars.length = 1 ∧
    (lockLoop (fun c => oneCarOps.getAvailableSeat c 0 1 (oneCarOps.countSeatBit 0 1) true)
        oneCarSchedule [0]).map (fun r => r.map (fun x => x.2.1.SeatNum)) =
      .ok (some "1B") ∧
    paidSeatOrder.Change oneCarOps.toScheduleOps { orders := [statusZeroOrder] } [trainG6]
      (Time.ofYearDay 2024 5) "G6" (Time.ofYearDay 2024 15) 0 1 3 7 true "SC" =
      .error .indexOutOfRange ∧
    paidSeatOrder.Change standingOps.toScheduleOps { orders := [statusZeroOrder] } [trainG6]
      (Time.ofYearDay 2024 5) "G6" (Time.ofYearDay 2024 15) 0 1 3 7 true "SC" =
      .error .indexOutOfRange := by
  refine ⟨by decide, by decide, by decide, by decide⟩

/-- C25, code defect: train `G1` calls at `X1` and `X2` in city `X` and at `Y1` in city
`Y`. `initCityTranMap` lists it twice under `X`, and `getViaTrans` from `X` to `Y`, and
from `Y` to `X`, returns it twice. -/
theorem C25_getViaTrans_returns_train_twice :
    (initCityTranMap [trainG1]).map (fun kv => (kv.1, kv.2.map viaKey)) =
      [("X", ["G12024-01-01", "G12024-01-01"]), ("Y", ["G12024-01-01"])] ∧
    getViaTrans (initCityTranMap [trainG1]) { StationCode := "X1", CityCode := "X" }
      { StationCode := "Y1", CityCode := "Y" } = [trainG1, trainG1] ∧
    getViaTrans (initCityTranMap [trainG1]) { StationCode := "Y1", CityCode := "Y" }
      { StationCode := "X1", CityCode := "X" } = [trainG1, trainG1] := by
  refine ⟨by decide, by decide, by decide⟩

end TTran
